import Mathlib

/-!
Verification of `src/aws_vpc.py` (calwas/aws-vpc).

The script drives a cloud provider's EC2 control-plane API through a boto3
client.  We embed it shallowly: the provider is an abstract environment
(`Env`) that answers each API call either with data (`Except.ok`) or with a
`ClientError` (`Except.error`), and every Python function becomes a Lean
function that, besides its result, records the trace of API calls it issued
(`Proc`).  An event is appended to the trace as soon as the call is made,
whether or not the provider answers it with an error, matching the fact
that in the source a raising call was still issued.  The environment is a
function of the region, mirroring `boto3.client('ec2', region_name=region)`.
-/

/-- `botocore.exceptions.ClientError`: a provider error carrying an error
code, a message and the name of the failed API operation. -/
structure ClientError where
  code : String
  message : String
  operation : String
deriving DecidableEq, Repr

/-- The error raised at `src/aws_vpc.py:151-157` when `create_route` returns
a false `Return` flag: a `ClientError` with code `CreateRouteError`. -/
def RouteCreationError : ClientError :=
  { code := "CreateRouteError"
    message := "Could not create the route"
    operation := "CreateRoute" }

/-- One record of `describe_route_tables`'s answer, as the source reads it:
`rtb['RouteTableId']` and the `RouteTableAssociationId` of each entry of
`rtb['Associations']`. -/
structure RouteTableInfo where
  routeTableId : String
  associations : List String
deriving DecidableEq, Repr

/-- The EC2 API calls the script can issue, with the arguments the source
passes.  Describe calls record the filter the source builds. -/
inductive Event where
  | create_vpc (cidrBlock : String)
  | wait_vpc_available (vpcIds : List String)
  | create_tags (resources : List String) (key value : String)
  | modify_vpc_attribute_dns_hostnames (vpcId : String) (value : Bool)
  | describe_vpcs_by_cidr (cidrBlock : String)
  | create_internet_gateway
  | attach_internet_gateway (igwId vpcId : String)
  | describe_internet_gateways_by_vpc (vpcId : String)
  | create_route_table (vpcId : String)
  | create_route (rtbId destCidr gatewayId : String)
  | describe_route_tables_by_gateway (igwId : String)
  | create_subnet (vpcId cidrBlock : String)
  | associate_route_table (rtbId subnetId : String)
  | modify_subnet_attribute_map_public_ip (subnetId : String) (value : Bool)
  | describe_subnets_by_vpc (vpcId : String)
  | disassociate_route_table (associationId : String)
  | delete_tags (resources : List String)
  | delete_route_table (rtbId : String)
  | detach_internet_gateway (igwId vpcId : String)
  | delete_internet_gateway (igwId : String)
  | delete_subnet (subnetId : String)
  | delete_vpc (vpcId : String)
deriving DecidableEq, Repr

/-- The provider: how each EC2 API call is answered.  Describe calls return
only the fields the source reads (resource ids; for route tables a
`RouteTableInfo`).  `create_route` returns the boolean `Return` flag of the
response.  `Except.error e` means the call raises `ClientError e`. -/
structure Env where
  create_vpc : String → Except ClientError String
  wait_vpc_available : String → Except ClientError Unit
  create_tags : List String → String → String → Except ClientError Unit
  modify_vpc_attribute : String → Bool → Except ClientError Unit
  describe_vpcs : String → Except ClientError (List String)
  create_internet_gateway : Except ClientError String
  attach_internet_gateway : String → String → Except ClientError Unit
  describe_internet_gateways : String → Except ClientError (List String)
  create_route_table : String → Except ClientError String
  create_route : String → String → String → Except ClientError Bool
  describe_route_tables : String → Except ClientError (List RouteTableInfo)
  create_subnet : String → String → Except ClientError String
  associate_route_table : String → String → Except ClientError String
  modify_subnet_attribute : String → Bool → Except ClientError Unit
  describe_subnets : String → Except ClientError (List String)
  disassociate_route_table : String → Except ClientError Unit
  delete_tags : List String → Except ClientError Unit
  delete_route_table : String → Except ClientError Unit
  detach_internet_gateway : String → String → Except ClientError Unit
  delete_internet_gateway : String → Except ClientError Unit
  delete_subnet : String → Except ClientError Unit
  delete_vpc : String → Except ClientError Unit

/-- A computation of the script: its result (or the `ClientError` it raises)
together with the trace of API calls it issued, in order. -/
def Proc (α : Type) : Type := Except ClientError α × List Event

/-- Return a value, issuing no API call. -/
def Proc.pure (a : α) : Proc α := (Except.ok a, [])

/-- Sequencing: an uncaught `ClientError` aborts the rest (the source has no
try/except around the calls inside these functions). -/
def Proc.bind (m : Proc α) (f : α → Proc β) : Proc β :=
  match m with
  | (Except.error e, t) => (Except.error e, t)
  | (Except.ok a, t) => ((f a).1, t ++ (f a).2)

/-- Issue one API call: log the event, then return the provider's answer. -/
def callEv (ev : Event) (r : Except ClientError α) : Proc α := (r, [ev])

/-- `create_vpc` (src/aws_vpc.py:9-47): create the VPC, optionally wait until
available, optionally tag it with a name, then always enable the
DNS-hostnames attribute, returning the VPC id the response carried. -/
def create_vpc (aws : String → Env) (region cidr_block : String)
    (vpc_name : Option String) (wait : Bool) : Proc String :=
  let client := aws region
  Proc.bind (callEv (Event.create_vpc cidr_block) (client.create_vpc cidr_block)) (fun vpc_id =>
  Proc.bind (if wait then
      callEv (Event.wait_vpc_available [vpc_id]) (client.wait_vpc_available vpc_id)
    else Proc.pure ()) (fun _ =>
  Proc.bind (match vpc_name with
    | some n => callEv (Event.create_tags [vpc_id] "Name" n) (client.create_tags [vpc_id] "Name" n)
    | none => Proc.pure ()) (fun _ =>
  Proc.bind (callEv (Event.modify_vpc_attribute_dns_hostnames vpc_id true)
      (client.modify_vpc_attribute vpc_id true)) (fun _ =>
  Proc.pure vpc_id))))

/-- `get_vpc_id` (src/aws_vpc.py:50-69): describe VPCs filtered by CIDR;
return the first match's id, or `none` when the filtered list is empty. -/
def get_vpc_id (aws : String → Env) (region cidr_block : String) : Proc (Option String) :=
  let client := aws region
  Proc.bind (callEv (Event.describe_vpcs_by_cidr cidr_block) (client.describe_vpcs cidr_block))
    (fun vpcs =>
      match vpcs with
      | [] => Proc.pure none
      | v :: _ => Proc.pure (some v))

/-- `create_internet_gateway` (src/aws_vpc.py:72-99): create the gateway,
optionally tag it, then attach it to the VPC. -/
def create_internet_gateway (aws : String → Env) (region vpc_id : String)
    (igw_name : Option String) : Proc String :=
  let client := aws region
  Proc.bind (callEv Event.create_internet_gateway client.create_internet_gateway) (fun igw_id =>
  Proc.bind (match igw_name with
    | some n => callEv (Event.create_tags [igw_id] "Name" n) (client.create_tags [igw_id] "Name" n)
    | none => Proc.pure ()) (fun _ =>
  Proc.bind (callEv (Event.attach_internet_gateway igw_id vpc_id)
      (client.attach_internet_gateway igw_id vpc_id)) (fun _ =>
  Proc.pure igw_id)))

/-- `get_vpc_internet_gateway_id` (src/aws_vpc.py:102-121): describe internet
gateways filtered by VPC attachment; first match's id, or `none`. -/
def get_vpc_internet_gateway_id (aws : String → Env) (region vpc_id : String) :
    Proc (Option String) :=
  let client := aws region
  Proc.bind (callEv (Event.describe_internet_gateways_by_vpc vpc_id)
      (client.describe_internet_gateways vpc_id))
    (fun igws =>
      match igws with
      | [] => Proc.pure none
      | g :: _ => Proc.pure (some g))

/-- `create_public_route_table` (src/aws_vpc.py:124-168): create the route
table, create the default route `0.0.0.0/0 -> igw` in it; if the response's
`Return` flag is false raise `RouteCreationError`; otherwise optionally tag
the table with a name. -/
def create_public_route_table (aws : String → Env) (region vpc_id igw_id : String)
    (rtb_name : Option String) : Proc String :=
  let client := aws region
  Proc.bind (callEv (Event.create_route_table vpc_id) (client.create_route_table vpc_id))
    (fun rtb_id =>
  Proc.bind (callEv (Event.create_route rtb_id "0.0.0.0/0" igw_id)
      (client.create_route rtb_id "0.0.0.0/0" igw_id)) (fun flag =>
  Proc.bind (if flag then Proc.pure () else (Except.error RouteCreationError, [])) (fun _ =>
  Proc.bind (match rtb_name with
    | some n => callEv (Event.create_tags [rtb_id] "Name" n) (client.create_tags [rtb_id] "Name" n)
    | none => Proc.pure ()) (fun _ =>
  Proc.pure rtb_id))))

/-- `get_public_route_table_info` (src/aws_vpc.py:171-191): describe route
tables filtered by `route.gateway-id`; first matching record, or `none`. -/
def get_public_route_table_info (aws : String → Env) (region igw_id : String) :
    Proc (Option RouteTableInfo) :=
  let client := aws region
  Proc.bind (callEv (Event.describe_route_tables_by_gateway igw_id)
      (client.describe_route_tables igw_id))
    (fun rtbs =>
      match rtbs with
      | [] => Proc.pure none
      | rtb :: _ => Proc.pure (some rtb))

/-- `create_subnet` (src/aws_vpc.py:193-220): create the subnet, optionally
tag it with a name. -/
def create_subnet (aws : String → Env) (region vpc_id subnet_cidr_block : String)
    (subnet_name : Option String) : Proc String :=
  let client := aws region
  Proc.bind (callEv (Event.create_subnet vpc_id subnet_cidr_block)
      (client.create_subnet vpc_id subnet_cidr_block)) (fun subnet_id =>
  Proc.bind (match subnet_name with
    | some n => callEv (Event.create_tags [subnet_id] "Name" n)
        (client.create_tags [subnet_id] "Name" n)
    | none => Proc.pure ()) (fun _ =>
  Proc.pure subnet_id))

/-- `associate_public_route` (src/aws_vpc.py:223-243): associate the route
table with the subnet, then enable the subnet's auto-assign-public-IP flag;
return the association id. -/
def associate_public_route (aws : String → Env) (region rtb_id subnet_id : String) :
    Proc String :=
  let client := aws region
  Proc.bind (callEv (Event.associate_route_table rtb_id subnet_id)
      (client.associate_route_table rtb_id subnet_id)) (fun association_id =>
  Proc.bind (callEv (Event.modify_subnet_attribute_map_public_ip subnet_id true)
      (client.modify_subnet_attribute subnet_id true)) (fun _ =>
  Proc.pure association_id))

/-- `get_subnets` (src/aws_vpc.py:246-264): describe subnets filtered by VPC
id; return the whole list (their ids, the only field the teardown reads). -/
def get_subnets (aws : String → Env) (region vpc_id : String) : Proc (List String) :=
  let client := aws region
  Proc.bind (callEv (Event.describe_subnets_by_vpc vpc_id) (client.describe_subnets vpc_id))
    (fun subnets => Proc.pure subnets)

/-- The `for association in rtb['Associations']` loop of
`delete_vpc_resources` (src/aws_vpc.py:289-290). -/
def disassociate_all (client : Env) (assocs : List String) : Proc Unit :=
  match assocs with
  | [] => Proc.pure ()
  | a :: rest =>
    Proc.bind (callEv (Event.disassociate_route_table a) (client.disassociate_route_table a))
      (fun _ => disassociate_all client rest)

/-- The `if rtb is not None` block of `delete_vpc_resources`
(src/aws_vpc.py:288-293): disassociate every association, delete the
table's tags, delete the table. -/
def teardown_route_table (client : Env) (rtb : RouteTableInfo) : Proc Unit :=
  Proc.bind (disassociate_all client rtb.associations) (fun _ =>
  Proc.bind (callEv (Event.delete_tags [rtb.routeTableId])
      (client.delete_tags [rtb.routeTableId])) (fun _ =>
  callEv (Event.delete_route_table rtb.routeTableId)
      (client.delete_route_table rtb.routeTableId)))

/-- Lines 295-301 of `delete_vpc_resources`: delete the gateway's tags,
detach it from the VPC, then delete it. -/
def delete_gateway_calls (client : Env) (igw_id vpc_id : String) : Proc Unit :=
  Proc.bind (callEv (Event.delete_tags [igw_id]) (client.delete_tags [igw_id])) (fun _ =>
  Proc.bind (callEv (Event.detach_internet_gateway igw_id vpc_id)
      (client.detach_internet_gateway igw_id vpc_id)) (fun _ =>
  callEv (Event.delete_internet_gateway igw_id)
      (client.delete_internet_gateway igw_id)))

/-- The `if igw_id is not None` block of `delete_vpc_resources`
(src/aws_vpc.py:285-301): look up the public route table and tear it down if
found, then delete the gateway's tags, detach it from the VPC, delete it. -/
def teardown_internet_gateway (aws : String → Env) (client : Env)
    (region igw_id vpc_id : String) : Proc Unit :=
  Proc.bind (get_public_route_table_info aws region igw_id) (fun rtb =>
  Proc.bind (match rtb with
    | some rtb => teardown_route_table client rtb
    | none => Proc.pure ()) (fun _ =>
  delete_gateway_calls client igw_id vpc_id))

/-- The `for subnet in subnets` loop of `delete_vpc_resources`
(src/aws_vpc.py:305-309): delete each subnet's tags then the subnet. -/
def delete_subnets_loop (client : Env) (subnets : List String) : Proc Unit :=
  match subnets with
  | [] => Proc.pure ()
  | s :: rest =>
    Proc.bind (callEv (Event.delete_tags [s]) (client.delete_tags [s])) (fun _ =>
    Proc.bind (callEv (Event.delete_subnet s) (client.delete_subnet s)) (fun _ =>
    delete_subnets_loop client rest))

/-- The closing block of `delete_vpc_resources` (src/aws_vpc.py:303-313):
list the VPC's subnets, delete each (tags first), then delete the VPC's tags
and the VPC. -/
def teardown_subnets_and_vpc (aws : String → Env) (client : Env)
    (region vpc_id : String) : Proc Unit :=
  Proc.bind (get_subnets aws region vpc_id) (fun subnets =>
  Proc.bind (delete_subnets_loop client subnets) (fun _ =>
  Proc.bind (callEv (Event.delete_tags [vpc_id]) (client.delete_tags [vpc_id])) (fun _ =>
  callEv (Event.delete_vpc vpc_id) (client.delete_vpc vpc_id))))

/-- `delete_vpc_resources` (src/aws_vpc.py:267-313): resolve the VPC by CIDR
(return at once if absent), tear down the attached gateway and its public
route table if present, then delete the subnets and the VPC. -/
def delete_vpc_resources (aws : String → Env) (region cidr_block : String) : Proc Unit :=
  Proc.bind (get_vpc_id aws region cidr_block) (fun vpc =>
  match vpc with
  | none => Proc.pure ()
  | some vpc_id =>
    let client := aws region
    Proc.bind (get_vpc_internet_gateway_id aws region vpc_id) (fun igw =>
    Proc.bind (match igw with
      | some igw_id => teardown_internet_gateway aws client region igw_id vpc_id
      | none => Proc.pure ()) (fun _ =>
    teardown_subnets_and_vpc aws client region vpc_id)))

/-! ## Event classifiers and trace predicates -/

/-- Is the event a `delete_vpc` call? -/
def isDeleteVpc : Event → Bool
  | Event.delete_vpc _ => true
  | _ => false

/-- Is the event a `delete_subnet` call? -/
def isDeleteSubnet : Event → Bool
  | Event.delete_subnet _ => true
  | _ => false

/-- Is the event a `delete_internet_gateway` call? -/
def isDeleteIgw : Event → Bool
  | Event.delete_internet_gateway _ => true
  | _ => false

/-- Is the event a `delete_route_table` call? -/
def isDeleteRtb : Event → Bool
  | Event.delete_route_table _ => true
  | _ => false

/-- Does the event mutate a route table's associations or delete it? -/
def touchesRouteTable : Event → Bool
  | Event.disassociate_route_table _ => true
  | Event.delete_route_table _ => true
  | _ => false

/-- Is the event one of the mutating teardown calls (delete, detach,
disassociate or tag removal)? -/
def isDeletionCall : Event → Bool
  | Event.disassociate_route_table _ => true
  | Event.delete_tags _ => true
  | Event.delete_route_table _ => true
  | Event.detach_internet_gateway _ _ => true
  | Event.delete_internet_gateway _ => true
  | Event.delete_subnet _ => true
  | Event.delete_vpc _ => true
  | _ => false

/-- Is the event the VPC-available waiter? -/
def isWaitVpc : Event → Bool
  | Event.wait_vpc_available _ => true
  | _ => false

/-- Is the event the DNS-hostnames attribute modification (with value true)? -/
def isModifyDnsHostnames : Event → Bool
  | Event.modify_vpc_attribute_dns_hostnames _ true => true
  | _ => false

/-- Events `teardown_route_table` can emit. -/
def rtbPhaseEvent : Event → Bool
  | Event.disassociate_route_table _ => true
  | Event.delete_tags _ => true
  | Event.delete_route_table _ => true
  | _ => false

/-- Events `teardown_internet_gateway` can emit. -/
def igwPhaseEvent : Event → Bool
  | Event.describe_route_tables_by_gateway _ => true
  | Event.disassociate_route_table _ => true
  | Event.delete_tags _ => true
  | Event.delete_route_table _ => true
  | Event.detach_internet_gateway _ _ => true
  | Event.delete_internet_gateway _ => true
  | _ => false

/-- Events `teardown_subnets_and_vpc` can emit. -/
def subnetPhaseEvent : Event → Bool
  | Event.describe_subnets_by_vpc _ => true
  | Event.delete_tags _ => true
  | Event.delete_subnet _ => true
  | Event.delete_vpc _ => true
  | _ => false

/-- Every event of the trace satisfying `p` occurs strictly before every
event satisfying `q`. -/
def eventsOrdered (t : List Event) (p q : Event → Bool) : Prop :=
  ∀ i j x y, t.get? i = some x → t.get? j = some y → p x = true → q y = true → i < j

/-! ## Concrete providers used to instantiate the theorems -/

/-- A provider for which every call succeeds: one VPC `vpc-1` (matching any
CIDR filter), one attached gateway `igw-1`, one public route table `rtb-1`
with a single association `assoc-1`, and one subnet `subnet-1`. -/
def okEnv : Env where
  create_vpc := fun _ => Except.ok "vpc-1"
  wait_vpc_available := fun _ => Except.ok ()
  create_tags := fun _ _ _ => Except.ok ()
  modify_vpc_attribute := fun _ _ => Except.ok ()
  describe_vpcs := fun _ => Except.ok ["vpc-1"]
  create_internet_gateway := Except.ok "igw-1"
  attach_internet_gateway := fun _ _ => Except.ok ()
  describe_internet_gateways := fun _ => Except.ok ["igw-1"]
  create_route_table := fun _ => Except.ok "rtb-1"
  create_route := fun _ _ _ => Except.ok true
  describe_route_tables := fun _ =>
    Except.ok [{ routeTableId := "rtb-1", associations := ["assoc-1"] }]
  create_subnet := fun _ _ => Except.ok "subnet-1"
  associate_route_table := fun _ _ => Except.ok "assoc-1"
  modify_subnet_attribute := fun _ _ => Except.ok ()
  describe_subnets := fun _ => Except.ok ["subnet-1"]
  disassociate_route_table := fun _ => Except.ok ()
  delete_tags := fun _ => Except.ok ()
  delete_route_table := fun _ => Except.ok ()
  detach_internet_gateway := fun _ _ => Except.ok ()
  delete_internet_gateway := fun _ => Except.ok ()
  delete_subnet := fun _ => Except.ok ()
  delete_vpc := fun _ => Except.ok ()

/-- `okEnv` in every region. -/
def okAws : String → Env := fun _ => okEnv

/-- A provider whose VPC lookup finds nothing. -/
def noVpcAws : String → Env := fun _ =>
  { okEnv with describe_vpcs := fun _ => Except.ok [] }

/-- A provider with one VPC but no attached gateway and no subnets. -/
def bareVpcAws : String → Env := fun _ =>
  { okEnv with
      describe_internet_gateways := fun _ => Except.ok []
      describe_subnets := fun _ => Except.ok [] }

/-- A provider with a VPC and an attached gateway but no route table whose
routes target the gateway. -/
def noRtbAws : String → Env := fun _ =>
  { okEnv with describe_route_tables := fun _ => Except.ok [] }

/-- A provider whose `create_route` call succeeds at the HTTP level but
answers with a false `Return` flag. -/
def falseRouteAws : String → Env := fun _ =>
  { okEnv with create_route := fun _ _ _ => Except.ok false }

/-- A sample transport-level provider error. -/
def sampleProviderError : ClientError :=
  { code := "UnauthorizedOperation"
    message := "You are not authorized to perform this operation"
    operation := "CreateRouteTable" }

/-- A provider whose `create_route_table` call raises. -/
def failRtbAws : String → Env := fun _ =>
  { okEnv with create_route_table := fun _ => Except.error sampleProviderError }

/-- A provider whose describe calls each return two matching records. -/
def twoMatchAws : String → Env := fun _ =>
  { okEnv with
      describe_vpcs := fun _ => Except.ok ["vpc-1", "vpc-2"]
      describe_internet_gateways := fun _ => Except.ok ["igw-1", "igw-2"]
      describe_route_tables := fun _ =>
        Except.ok [{ routeTableId := "rtb-1", associations := ["assoc-1"] },
                   { routeTableId := "rtb-2", associations := [] }] }

/-! ## Basic facts about `Proc` -/

lemma Proc.bind_error {α β : Type} (e : ClientError) (t : List Event) (f : α → Proc β) :
    Proc.bind (Except.error e, t) f = (Except.error e, t) := rfl

lemma Proc.bind_ok {α β : Type} (a : α) (t : List Event) (f : α → Proc β) :
    Proc.bind (Except.ok a, t) f = ((f a).1, t ++ (f a).2) := rfl

lemma Proc.pure_bind {α β : Type} (a : α) (f : α → Proc β) :
    Proc.bind (Proc.pure a) f = f a := by
  simp [Proc.pure, Proc.bind]

/-! ## Positional facts about traces -/

lemma eventsOrdered_of_split (t1 t2 : List Event) (p q : Event → Bool)
    (h2 : ∀ x ∈ t2, p x = false) (h1 : ∀ x ∈ t1, q x = false) :
    eventsOrdered (t1 ++ t2) p q := by
  intro i j x y hi hj hx hy
  by_cases hi2 : i < t1.length
  · by_cases hj2 : j < t1.length
    · exfalso
      rw [List.get?_append hj2] at hj
      simp [h1 y (List.get?_mem hj)] at hy
    · omega
  · exfalso
    push_neg at hi2
    rw [List.get?_append_right hi2] at hi
    simp [h2 x (List.get?_mem hi)] at hx

lemma get_in_unique (t1 t2 : List Event) (e0 x : Event) (p : Event → Bool) (j : Nat)
    (h1 : ∀ z ∈ t1, p z = false) (h2 : ∀ z ∈ t2, p z = false)
    (hj : (t1 ++ e0 :: t2).get? j = some x) (hx : p x = true) :
    j = t1.length ∧ x = e0 := by
  by_cases hlt : j < t1.length
  · exfalso
    rw [List.get?_append hlt] at hj
    simp [h1 x (List.get?_mem hj)] at hx
  · push_neg at hlt
    rw [List.get?_append_right hlt] at hj
    rcases Nat.eq_or_lt_of_le hlt with heq | hgt
    · have h0 : j - t1.length = 0 := by omega
      rw [h0, List.get?_cons_zero] at hj
      refine ⟨by omega, ?_⟩
      injection hj with hj2
      exact hj2.symm
    · exfalso
      have hk : j - t1.length = (j - t1.length - 1) + 1 := by omega
      rw [hk, List.get?_cons_succ] at hj
      simp [h2 x (List.get?_mem hj)] at hx

/-! ## Characterizations of the lookup helpers -/

lemma get_vpc_id_error {aws : String → Env} {region c : String} {e : ClientError}
    (h : (aws region).describe_vpcs c = Except.error e) :
    get_vpc_id aws region c = (Except.error e, [Event.describe_vpcs_by_cidr c]) := by
  simp [get_vpc_id, callEv, Proc.bind, h]

lemma get_vpc_id_none {aws : String → Env} {region c : String}
    (h : (aws region).describe_vpcs c = Except.ok []) :
    get_vpc_id aws region c = (Except.ok none, [Event.describe_vpcs_by_cidr c]) := by
  simp [get_vpc_id, callEv, Proc.bind, Proc.pure, h]

lemma get_vpc_id_some {aws : String → Env} {region c v : String} {vs : List String}
    (h : (aws region).describe_vpcs c = Except.ok (v :: vs)) :
    get_vpc_id aws region c = (Except.ok (some v), [Event.describe_vpcs_by_cidr c]) := by
  simp [get_vpc_id, callEv, Proc.bind, Proc.pure, h]

lemma get_igw_id_error {aws : String → Env} {region v : String} {e : ClientError}
    (h : (aws region).describe_internet_gateways v = Except.error e) :
    get_vpc_internet_gateway_id aws region v =
      (Except.error e, [Event.describe_internet_gateways_by_vpc v]) := by
  simp [get_vpc_internet_gateway_id, callEv, Proc.bind, h]

lemma get_igw_id_none {aws : String → Env} {region v : String}
    (h : (aws region).describe_internet_gateways v = Except.ok []) :
    get_vpc_internet_gateway_id aws region v =
      (Except.ok none, [Event.describe_internet_gateways_by_vpc v]) := by
  simp [get_vpc_internet_gateway_id, callEv, Proc.bind, Proc.pure, h]

lemma get_igw_id_some {aws : String → Env} {region v g : String} {gs : List String}
    (h : (aws region).describe_internet_gateways v = Except.ok (g :: gs)) :
    get_vpc_internet_gateway_id aws region v =
      (Except.ok (some g), [Event.describe_internet_gateways_by_vpc v]) := by
  simp [get_vpc_internet_gateway_id, callEv, Proc.bind, Proc.pure, h]

lemma get_rtb_info_error {aws : String → Env} {region g : String} {e : ClientError}
    (h : (aws region).describe_route_tables g = Except.error e) :
    get_public_route_table_info aws region g =
      (Except.error e, [Event.describe_route_tables_by_gateway g]) := by
  simp [get_public_route_table_info, callEv, Proc.bind, h]

lemma get_rtb_info_none {aws : String → Env} {region g : String}
    (h : (aws region).describe_route_tables g = Except.ok []) :
    get_public_route_table_info aws region g =
      (Except.ok none, [Event.describe_route_tables_by_gateway g]) := by
  simp [get_public_route_table_info, callEv, Proc.bind, Proc.pure, h]

lemma get_rtb_info_some {aws : String → Env} {region g : String} {rtb : RouteTableInfo}
    {rtbs : List RouteTableInfo}
    (h : (aws region).describe_route_tables g = Except.ok (rtb :: rtbs)) :
    get_public_route_table_info aws region g =
      (Except.ok (some rtb), [Event.describe_route_tables_by_gateway g]) := by
  simp [get_public_route_table_info, callEv, Proc.bind, Proc.pure, h]

lemma get_subnets_error {aws : String → Env} {region v : String} {e : ClientError}
    (h : (aws region).describe_subnets v = Except.error e) :
    get_subnets aws region v = (Except.error e, [Event.describe_subnets_by_vpc v]) := by
  simp [get_subnets, callEv, Proc.bind, h]

lemma get_subnets_ok {aws : String → Env} {region v : String} {ss : List String}
    (h : (aws region).describe_subnets v = Except.ok ss) :
    get_subnets aws region v = (Except.ok ss, [Event.describe_subnets_by_vpc v]) := by
  simp [get_subnets, callEv, Proc.bind, Proc.pure, h]

/-! ## The disassociation loop -/

lemma disassociate_all_events (client : Env) (as : List String) :
    ∀ x ∈ (disassociate_all client as).2, ∃ a, x = Event.disassociate_route_table a := by
  induction as with
  | nil => intro x hx; simp [disassociate_all, Proc.pure] at hx
  | cons a rest ih =>
    intro x hx
    cases h : client.disassociate_route_table a with
    | error e =>
      simp [disassociate_all, callEv, Proc.bind, h] at hx
      exact ⟨a, hx⟩
    | ok u =>
      simp [disassociate_all, callEv, Proc.bind, h] at hx
      rcases hx with hx | hx
      · exact ⟨a, hx⟩
      · exact ih x hx

lemma disassociate_all_ok_trace (client : Env) (as : List String)
    (h : (disassociate_all client as).1 = Except.ok ()) :
    (disassociate_all client as).2 = as.map (fun a => Event.disassociate_route_table a) := by
  induction as with
  | nil => simp [disassociate_all, Proc.pure]
  | cons a rest ih =>
    cases hc : client.disassociate_route_table a with
    | error e =>
      exfalso
      simp [disassociate_all, callEv, Proc.bind, hc] at h
    | ok u =>
      simp only [disassociate_all, callEv, Proc.bind, hc] at h ⊢
      simp only [List.map_cons, List.singleton_append, List.cons.injEq, true_and]
      exact ih h

lemma disassociate_all_ok {client : Env} {as : List String}
    (h : ∀ a ∈ as, client.disassociate_route_table a = Except.ok ()) :
    disassociate_all client as =
      (Except.ok (), as.map (fun a => Event.disassociate_route_table a)) := by
  induction as with
  | nil => simp [disassociate_all, Proc.pure]
  | cons a rest ih =>
    have ha := h a (by simp)
    have hr : ∀ a2 ∈ rest, client.disassociate_route_table a2 = Except.ok () :=
      fun a2 ha2 => h a2 (by simp [ha2])
    simp [disassociate_all, callEv, Proc.bind, ha, ih hr]

/-! ## The subnet deletion loop -/

lemma delete_subnets_loop_events (client : Env) (ss : List String) :
    ∀ x ∈ (delete_subnets_loop client ss).2,
      (∃ s, x = Event.delete_tags [s]) ∨ ∃ s, x = Event.delete_subnet s := by
  induction ss with
  | nil => intro x hx; simp [delete_subnets_loop, Proc.pure] at hx
  | cons s rest ih =>
    intro x hx
    cases h1 : client.delete_tags [s] with
    | error e =>
      simp [delete_subnets_loop, callEv, Proc.bind, h1] at hx
      exact Or.inl ⟨s, hx⟩
    | ok u =>
      cases h2 : client.delete_subnet s with
      | error e =>
        simp [delete_subnets_loop, callEv, Proc.bind, h1, h2] at hx
        rcases hx with hx | hx
        · exact Or.inl ⟨s, hx⟩
        · exact Or.inr ⟨s, hx⟩
      | ok u2 =>
        simp [delete_subnets_loop, callEv, Proc.bind, h1, h2] at hx
        rcases hx with hx | hx | hx
        · exact Or.inl ⟨s, hx⟩
        · exact Or.inr ⟨s, hx⟩
        · exact ih x hx

lemma delete_subnets_loop_ok {client : Env} {ss : List String}
    (h : ∀ s ∈ ss, client.delete_tags [s] = Except.ok () ∧
        client.delete_subnet s = Except.ok ()) :
    delete_subnets_loop client ss =
      (Except.ok (), ss.flatMap (fun s => [Event.delete_tags [s], Event.delete_subnet s])) := by
  induction ss with
  | nil => simp [delete_subnets_loop, Proc.pure]
  | cons s rest ih =>
    have hs := h s (by simp)
    have hr : ∀ s2 ∈ rest, client.delete_tags [s2] = Except.ok () ∧
        client.delete_subnet s2 = Except.ok () :=
      fun s2 hs2 => h s2 (by simp [hs2])
    simp [delete_subnets_loop, callEv, Proc.bind, hs.1, hs.2, ih hr]

/-! ## Route table teardown phase -/

lemma teardown_route_table_events (client : Env) (rtb : RouteTableInfo) :
    ∀ x ∈ (teardown_route_table client rtb).2, rtbPhaseEvent x = true := by
  intro x hx
  cases hD : disassociate_all client rtb.associations with
  | mk rD tD =>
    cases rD with
    | error e =>
      simp only [teardown_route_table, hD, Proc.bind] at hx
      obtain ⟨a, ha⟩ := disassociate_all_events client rtb.associations x (by rw [hD]; exact hx)
      simp [ha, rtbPhaseEvent]
    | ok u =>
      cases h1 : client.delete_tags [rtb.routeTableId] with
      | error e =>
        simp only [teardown_route_table, hD, Proc.bind, callEv, h1] at hx
        rw [List.mem_append] at hx
        rcases hx with hx | hx
        · obtain ⟨a, ha⟩ :=
            disassociate_all_events client rtb.associations x (by rw [hD]; exact hx)
          simp [ha, rtbPhaseEvent]
        · rw [List.mem_singleton] at hx
          simp [hx, rtbPhaseEvent]
      | ok u2 =>
        simp only [teardown_route_table, hD, Proc.bind, callEv, h1] at hx
        simp only [List.mem_append, List.mem_cons, List.mem_singleton,
          List.not_mem_nil, or_false] at hx
        rcases hx with hx | hx | hx
        · obtain ⟨a, ha⟩ :=
            disassociate_all_events client rtb.associations x (by rw [hD]; exact hx)
          simp [ha, rtbPhaseEvent]
        · simp [hx, rtbPhaseEvent]
        · simp [hx, rtbPhaseEvent]

lemma teardown_route_table_shape (client : Env) (rtb : RouteTableInfo) :
    (∃ e A, teardown_route_table client rtb = (Except.error e, A) ∧
        ∀ x ∈ A, isDeleteRtb x = false) ∨
    (∃ r, teardown_route_table client rtb =
        (r, (rtb.associations.map (fun a => Event.disassociate_route_table a)) ++
            [Event.delete_tags [rtb.routeTableId],
             Event.delete_route_table rtb.routeTableId])) := by
  cases hD : disassociate_all client rtb.associations with
  | mk rD tD =>
    cases rD with
    | error e =>
      left
      refine ⟨e, tD, ?_, ?_⟩
      · simp [teardown_route_table, hD, Proc.bind]
      · intro x hx
        obtain ⟨a, ha⟩ := disassociate_all_events client rtb.associations x (by rw [hD]; exact hx)
        simp [ha, isDeleteRtb]
    | ok u =>
      have htr : tD = rtb.associations.map (fun a => Event.disassociate_route_table a) := by
        have h2 := disassociate_all_ok_trace client rtb.associations (by rw [hD])
        rw [hD] at h2
        exact h2
      cases h1 : client.delete_tags [rtb.routeTableId] with
      | error e =>
        left
        refine ⟨e, tD ++ [Event.delete_tags [rtb.routeTableId]], ?_, ?_⟩
        · simp [teardown_route_table, hD, Proc.bind, callEv, h1]
        · intro x hx
          simp only [List.mem_append, List.mem_singleton] at hx
          rcases hx with hx | hx
          · obtain ⟨a, ha⟩ :=
              disassociate_all_events client rtb.associations x (by rw [hD]; exact hx)
            simp [ha, isDeleteRtb]
          · simp [hx, isDeleteRtb]
      | ok u2 =>
        right
        refine ⟨client.delete_route_table rtb.routeTableId, ?_⟩
        rw [← htr]
        simp [teardown_route_table, hD, Proc.bind, callEv, h1]

/-! ## Gateway deletion calls (tags, detach, delete) -/

lemma delete_gateway_calls_events (client : Env) (g v : String) :
    ∀ x ∈ (delete_gateway_calls client g v).2,
      (∃ rs, x = Event.delete_tags rs) ∨ x = Event.detach_internet_gateway g v ∨
        x = Event.delete_internet_gateway g := by
  intro x hx
  cases h1 : client.delete_tags [g] with
  | error e =>
    simp only [delete_gateway_calls, callEv, Proc.bind, h1, List.mem_singleton] at hx
    exact Or.inl ⟨[g], hx⟩
  | ok u =>
    cases h2 : client.detach_internet_gateway g v with
    | error e =>
      simp only [delete_gateway_calls, callEv, Proc.bind, h1, h2] at hx
      simp only [List.mem_append, List.mem_singleton] at hx
      rcases hx with hx | hx
      · exact Or.inl ⟨[g], hx⟩
      · exact Or.inr (Or.inl hx)
    | ok u2 =>
      simp only [delete_gateway_calls, callEv, Proc.bind, h1, h2] at hx
      simp only [List.mem_append, List.mem_cons, List.mem_singleton,
        List.not_mem_nil, or_false] at hx
      rcases hx with hx | hx | hx
      · exact Or.inl ⟨[g], hx⟩
      · exact Or.inr (Or.inl hx)
      · exact Or.inr (Or.inr hx)

lemma delete_gateway_calls_shape (client : Env) (g v : String) :
    (∃ e A, delete_gateway_calls client g v = (Except.error e, A) ∧
        ∀ g2, Event.delete_internet_gateway g2 ∉ A) ∨
    (∃ r, delete_gateway_calls client g v =
        (r, [Event.delete_tags [g]] ++
            [Event.detach_internet_gateway g v, Event.delete_internet_gateway g])) := by
  cases h1 : client.delete_tags [g] with
  | error e =>
    left
    refine ⟨e, [Event.delete_tags [g]], ?_, by simp⟩
    simp [delete_gateway_calls, callEv, Proc.bind, h1]
  | ok u =>
    cases h2 : client.detach_internet_gateway g v with
    | error e =>
      left
      refine ⟨e, [Event.delete_tags [g], Event.detach_internet_gateway g v], ?_, by simp⟩
      simp [delete_gateway_calls, callEv, Proc.bind, h1, h2]
    | ok u2 =>
      right
      refine ⟨client.delete_internet_gateway g, ?_⟩
      simp [delete_gateway_calls, callEv, Proc.bind, h1, h2]

/-! ## Internet gateway teardown phase -/

lemma igwPhaseEvent_of_rtbPhaseEvent {x : Event} (h : rtbPhaseEvent x = true) :
    igwPhaseEvent x = true := by
  cases x <;> simp_all [rtbPhaseEvent, igwPhaseEvent]

lemma teardown_internet_gateway_events (aws : String → Env) (client : Env)
    (region g v : String) :
    ∀ x ∈ (teardown_internet_gateway aws client region g v).2, igwPhaseEvent x = true := by
  intro x hx
  cases hr : (aws region).describe_route_tables g with
  | error e =>
    simp only [teardown_internet_gateway, get_rtb_info_error hr, Proc.bind,
      List.mem_singleton] at hx
    simp [hx, igwPhaseEvent]
  | ok rtbs =>
    cases rtbs with
    | nil =>
      simp only [teardown_internet_gateway, get_rtb_info_none hr, Proc.bind,
        Proc.pure_bind] at hx
      simp only [List.mem_append, List.mem_singleton, Proc.pure, List.nil_append] at hx
      rcases hx with hx | hx
      · simp [hx, igwPhaseEvent]
      · rcases delete_gateway_calls_events client g v x hx with ⟨rs, h3⟩ | h3 | h3 <;>
          simp [h3, igwPhaseEvent]
    | cons rtb rest =>
      cases hT : teardown_route_table client rtb with
      | mk rT tT =>
        cases rT with
        | error e =>
          simp only [teardown_internet_gateway, get_rtb_info_some hr, Proc.bind, hT,
            List.mem_append, List.mem_singleton] at hx
          rcases hx with hx | hx
          · simp [hx, igwPhaseEvent]
          · exact igwPhaseEvent_of_rtbPhaseEvent
              (teardown_route_table_events client rtb x (by rw [hT]; exact hx))
        | ok u =>
          simp only [teardown_internet_gateway, get_rtb_info_some hr, Proc.bind, hT,
            List.mem_append, List.mem_singleton] at hx
          rcases hx with hx | hx | hx
          · simp [hx, igwPhaseEvent]
          · exact igwPhaseEvent_of_rtbPhaseEvent
              (teardown_route_table_events client rtb x (by rw [hT]; exact hx))
          · rcases delete_gateway_calls_events client g v x hx with ⟨rs, h3⟩ | h3 | h3 <;>
              simp [h3, igwPhaseEvent]

lemma not_mem_cons_append {x y : Event} {t1 t2 : List Event}
    (h0 : x ≠ y) (h1 : x ∉ t1) (h2 : x ∉ t2) : x ∉ y :: (t1 ++ t2) := by
  simp [List.mem_cons, List.mem_append, h0, h1, h2]

lemma teardown_internet_gateway_shape (aws : String → Env) (client : Env)
    (region g v : String) :
    (∀ g2, Event.delete_internet_gateway g2 ∉
        (teardown_internet_gateway aws client region g v).2) ∨
    (∃ A, (teardown_internet_gateway aws client region g v).2 =
        A ++ [Event.detach_internet_gateway g v, Event.delete_internet_gateway g] ∧
        ∀ g2, Event.delete_internet_gateway g2 ∉ A) := by
  cases hr : (aws region).describe_route_tables g with
  | error e =>
    left
    intro g2
    simp [teardown_internet_gateway, get_rtb_info_error hr, Proc.bind]
  | ok rtbs =>
    cases rtbs with
    | nil =>
      rcases delete_gateway_calls_shape client g v with ⟨e, A, hEq, hA⟩ | ⟨r, hEq⟩
      · have hTr : (teardown_internet_gateway aws client region g v).2 =
            Event.describe_route_tables_by_gateway g :: ([] ++ A) := by
          simp [teardown_internet_gateway, get_rtb_info_none hr, Proc.bind, Proc.pure, hEq]
        left
        intro g2
        rw [hTr]
        exact not_mem_cons_append (by simp) (by simp) (hA g2)
      · have hTr : (teardown_internet_gateway aws client region g v).2 =
            [Event.describe_route_tables_by_gateway g, Event.delete_tags [g]] ++
              [Event.detach_internet_gateway g v, Event.delete_internet_gateway g] := by
          simp [teardown_internet_gateway, get_rtb_info_none hr, Proc.bind, Proc.pure, hEq]
        right
        exact ⟨[Event.describe_route_tables_by_gateway g, Event.delete_tags [g]], hTr, by simp⟩
    | cons rtb rest =>
      cases hT : teardown_route_table client rtb with
      | mk rT tT =>
        have hTev : ∀ g2, Event.delete_internet_gateway g2 ∉ tT := by
          intro g2 hmem
          have h2 := teardown_route_table_events client rtb _ (by rw [hT]; exact hmem)
          simp [rtbPhaseEvent] at h2
        cases rT with
        | error e =>
          have hTr : (teardown_internet_gateway aws client region g v).2 =
              Event.describe_route_tables_by_gateway g :: (tT ++ []) := by
            simp [teardown_internet_gateway, get_rtb_info_some hr, Proc.bind, hT]
          left
          intro g2
          rw [hTr]
          exact not_mem_cons_append (by simp) (hTev g2) (by simp)
        | ok u =>
          rcases delete_gateway_calls_shape client g v with ⟨e, A, hEq, hA⟩ | ⟨r, hEq⟩
          · have hTr : (teardown_internet_gateway aws client region g v).2 =
                Event.describe_route_tables_by_gateway g :: (tT ++ A) := by
              simp [teardown_internet_gateway, get_rtb_info_some hr, Proc.bind, hT, hEq]
            left
            intro g2
            rw [hTr]
            exact not_mem_cons_append (by simp) (hTev g2) (hA g2)
          · have hTr : (teardown_internet_gateway aws client region g v).2 =
                (Event.describe_route_tables_by_gateway g :: (tT ++ [Event.delete_tags [g]])) ++
                  [Event.detach_internet_gateway g v, Event.delete_internet_gateway g] := by
              simp [teardown_internet_gateway, get_rtb_info_some hr, Proc.bind, hT, hEq]
            right
            refine ⟨Event.describe_route_tables_by_gateway g :: (tT ++ [Event.delete_tags [g]]),
              hTr, ?_⟩
            intro g2
            exact not_mem_cons_append (by simp) (hTev g2) (by simp)

lemma teardown_internet_gateway_rtb {aws : String → Env} {client : Env} {region g v : String}
    {rtb : RouteTableInfo} {rest : List RouteTableInfo}
    (hr : (aws region).describe_route_tables g = Except.ok (rtb :: rest)) :
    ∃ B, (teardown_internet_gateway aws client region g v).2 =
        Event.describe_route_tables_by_gateway g :: ((teardown_route_table client rtb).2 ++ B) ∧
      ∀ x ∈ B, touchesRouteTable x = false := by
  cases hT : teardown_route_table client rtb with
  | mk rT tT =>
    cases rT with
    | error e =>
      refine ⟨[], ?_, by simp⟩
      simp [teardown_internet_gateway, get_rtb_info_some hr, Proc.bind, hT]
    | ok u =>
      refine ⟨(delete_gateway_calls client g v).2, ?_, ?_⟩
      · simp [teardown_internet_gateway, get_rtb_info_some hr, Proc.bind, hT]
      · intro x hx
        rcases delete_gateway_calls_events client g v x hx with ⟨rs, h3⟩ | h3 | h3 <;>
          simp [h3, touchesRouteTable]

/-! ## Subnet and VPC teardown phase -/

lemma teardown_subnets_and_vpc_events (aws : String → Env) (client : Env) (region v : String) :
    ∀ x ∈ (teardown_subnets_and_vpc aws client region v).2, subnetPhaseEvent x = true := by
  intro x hx
  cases hs : (aws region).describe_subnets v with
  | error e =>
    simp only [teardown_subnets_and_vpc, get_subnets_error hs, Proc.bind,
      List.mem_singleton] at hx
    simp [hx, subnetPhaseEvent]
  | ok ss =>
    cases hL : delete_subnets_loop client ss with
    | mk rL tL =>
      have hLev : ∀ y ∈ tL, subnetPhaseEvent y = true := by
        intro y hy
        rcases delete_subnets_loop_events client ss y (by rw [hL]; exact hy) with ⟨s, h3⟩ | ⟨s, h3⟩ <;>
          simp [h3, subnetPhaseEvent]
      cases rL with
      | error e =>
        simp only [teardown_subnets_and_vpc, get_subnets_ok hs, Proc.bind, hL,
          List.mem_append, List.mem_singleton] at hx
        rcases hx with hx | hx
        · simp [hx, subnetPhaseEvent]
        · exact hLev x hx
      | ok u =>
        cases h1 : client.delete_tags [v] with
        | error e =>
          simp only [teardown_subnets_and_vpc, get_subnets_ok hs, Proc.bind, hL, callEv, h1,
            List.mem_append, List.mem_singleton] at hx
          rcases hx with hx | hx | hx
          · simp [hx, subnetPhaseEvent]
          · exact hLev x hx
          · simp [hx, subnetPhaseEvent]
        | ok u2 =>
          simp only [teardown_subnets_and_vpc, get_subnets_ok hs, Proc.bind, hL, callEv, h1,
            List.mem_append, List.mem_cons, List.mem_singleton, List.not_mem_nil,
            or_false] at hx
          rcases hx with hx | hx | hx | hx
          · simp [hx, subnetPhaseEvent]
          · exact hLev x hx
          · simp [hx, subnetPhaseEvent]
          · simp [hx, subnetPhaseEvent]

lemma teardown_subnets_and_vpc_shape (aws : String → Env) (client : Env) (region v : String) :
    ∃ A, (∀ x ∈ A, isDeleteVpc x = false) ∧
      ((teardown_subnets_and_vpc aws client region v).2 = A ∨
       (teardown_subnets_and_vpc aws client region v).2 = A ++ [Event.delete_vpc v]) := by
  cases hs : (aws region).describe_subnets v with
  | error e =>
    refine ⟨[Event.describe_subnets_by_vpc v], by simp [isDeleteVpc], Or.inl ?_⟩
    simp [teardown_subnets_and_vpc, get_subnets_error hs, Proc.bind]
  | ok ss =>
    cases hL : delete_subnets_loop client ss with
    | mk rL tL =>
      have hLev : ∀ y ∈ tL, isDeleteVpc y = false := by
        intro y hy
        rcases delete_subnets_loop_events client ss y (by rw [hL]; exact hy) with ⟨s, h3⟩ | ⟨s, h3⟩ <;>
          simp [h3, isDeleteVpc]
      cases rL with
      | error e =>
        refine ⟨Event.describe_subnets_by_vpc v :: tL, ?_, Or.inl ?_⟩
        · intro x hx
          rcases List.mem_cons.mp hx with hx | hx
          · simp [hx, isDeleteVpc]
          · exact hLev x hx
        · simp [teardown_subnets_and_vpc, get_subnets_ok hs, Proc.bind, hL]
      | ok u =>
        cases h1 : client.delete_tags [v] with
        | error e =>
          refine ⟨Event.describe_subnets_by_vpc v :: (tL ++ [Event.delete_tags [v]]), ?_,
            Or.inl ?_⟩
          · intro x hx
            rcases List.mem_cons.mp hx with hx | hx
            · simp [hx, isDeleteVpc]
            · rcases List.mem_append.mp hx with hx | hx
              · exact hLev x hx
              · rw [List.mem_singleton] at hx
                simp [hx, isDeleteVpc]
          · simp [teardown_subnets_and_vpc, get_subnets_ok hs, Proc.bind, hL, callEv, h1]
        | ok u2 =>
          refine ⟨Event.describe_subnets_by_vpc v :: (tL ++ [Event.delete_tags [v]]), ?_,
            Or.inr ?_⟩
          · intro x hx
            rcases List.mem_cons.mp hx with hx | hx
            · simp [hx, isDeleteVpc]
            · rcases List.mem_append.mp hx with hx | hx
              · exact hLev x hx
              · rw [List.mem_singleton] at hx
                simp [hx, isDeleteVpc]
          · simp [teardown_subnets_and_vpc, get_subnets_ok hs, Proc.bind, hL, callEv, h1,
              List.append_assoc]

/-! ## Classifier bridges and membership combinators -/

lemma forall_mem_append_events {p : Event → Bool} {t1 t2 : List Event}
    (h1 : ∀ x ∈ t1, p x = false) (h2 : ∀ x ∈ t2, p x = false) :
    ∀ x ∈ t1 ++ t2, p x = false := by
  intro x hx
  rcases List.mem_append.mp hx with hx | hx
  · exact h1 x hx
  · exact h2 x hx

lemma forall_mem_cons_events {p : Event → Bool} {y : Event} {t : List Event}
    (hy : p y = false) (h : ∀ x ∈ t, p x = false) : ∀ x ∈ y :: t, p x = false := by
  intro x hx
  rcases List.mem_cons.mp hx with hx | hx
  · rw [hx]; exact hy
  · exact h x hx

lemma isDeleteVpc_false_of_igwPhase {x : Event} (h : igwPhaseEvent x = true) :
    isDeleteVpc x = false := by
  cases x <;> simp_all [igwPhaseEvent, isDeleteVpc]

lemma isDeleteIgw_false_of_subnetPhase {x : Event} (h : subnetPhaseEvent x = true) :
    isDeleteIgw x = false := by
  cases x <;> simp_all [subnetPhaseEvent, isDeleteIgw]

lemma isDeleteRtb_false_of_subnetPhase {x : Event} (h : subnetPhaseEvent x = true) :
    isDeleteRtb x = false := by
  cases x <;> simp_all [subnetPhaseEvent, isDeleteRtb]

lemma isDeleteRtb_false_of_touches_false {x : Event} (h : touchesRouteTable x = false) :
    isDeleteRtb x = false := by
  cases x <;> simp_all [touchesRouteTable, isDeleteRtb]

/-! ## Global trace shape of `delete_vpc_resources` -/

lemma delete_vpc_resources_vpclast (aws : String → Env) (region c : String) :
    ∃ A B, (delete_vpc_resources aws region c).2 = A ++ B ∧
      (∀ x ∈ A, isDeleteVpc x = false) ∧
      (B = [] ∨ ∃ v, B = [Event.delete_vpc v]) := by
  cases hv : (aws region).describe_vpcs c with
  | error e =>
    refine ⟨[Event.describe_vpcs_by_cidr c], [], ?_, by simp [isDeleteVpc], Or.inl rfl⟩
    simp [delete_vpc_resources, get_vpc_id_error hv, Proc.bind]
  | ok vs =>
    cases vs with
    | nil =>
      refine ⟨[Event.describe_vpcs_by_cidr c], [], ?_, by simp [isDeleteVpc], Or.inl rfl⟩
      simp [delete_vpc_resources, get_vpc_id_none hv, Proc.bind, Proc.pure]
    | cons v vs2 =>
      cases hg : (aws region).describe_internet_gateways v with
      | error e =>
        refine ⟨[Event.describe_vpcs_by_cidr c, Event.describe_internet_gateways_by_vpc v], [],
          ?_, by simp [isDeleteVpc], Or.inl rfl⟩
        simp [delete_vpc_resources, get_vpc_id_some hv, get_igw_id_error hg, Proc.bind]
      | ok gs =>
        cases gs with
        | nil =>
          obtain ⟨A0, hA0, hOr⟩ := teardown_subnets_and_vpc_shape aws (aws region) region v
          have hTr : (delete_vpc_resources aws region c).2 =
              Event.describe_vpcs_by_cidr c :: Event.describe_internet_gateways_by_vpc v ::
                (teardown_subnets_and_vpc aws (aws region) region v).2 := by
            simp [delete_vpc_resources, get_vpc_id_some hv, get_igw_id_none hg, Proc.bind,
              Proc.pure]
          have hAmem : ∀ x ∈ Event.describe_vpcs_by_cidr c ::
              Event.describe_internet_gateways_by_vpc v :: A0, isDeleteVpc x = false :=
            forall_mem_cons_events (by simp [isDeleteVpc])
              (forall_mem_cons_events (by simp [isDeleteVpc]) hA0)
          rcases hOr with hsub | hsub
          · refine ⟨Event.describe_vpcs_by_cidr c ::
                Event.describe_internet_gateways_by_vpc v :: A0, [], ?_, hAmem, Or.inl rfl⟩
            rw [hTr, hsub]
            simp
          · refine ⟨Event.describe_vpcs_by_cidr c ::
                Event.describe_internet_gateways_by_vpc v :: A0, [Event.delete_vpc v], ?_,
              hAmem, Or.inr ⟨v, rfl⟩⟩
            rw [hTr, hsub]
            simp
        | cons g gs2 =>
          cases hIG : teardown_internet_gateway aws (aws region) region g v with
          | mk rI tI =>
            have hIev : ∀ x ∈ tI, isDeleteVpc x = false := fun x hx =>
              isDeleteVpc_false_of_igwPhase
                (teardown_internet_gateway_events aws (aws region) region g v x
                  (by rw [hIG]; exact hx))
            cases rI with
            | error e =>
              refine ⟨Event.describe_vpcs_by_cidr c ::
                  Event.describe_internet_gateways_by_vpc v :: tI, [], ?_,
                forall_mem_cons_events (by simp [isDeleteVpc])
                  (forall_mem_cons_events (by simp [isDeleteVpc]) hIev), Or.inl rfl⟩
              simp [delete_vpc_resources, get_vpc_id_some hv, get_igw_id_some hg, Proc.bind, hIG]
            | ok u =>
              obtain ⟨A0, hA0, hOr⟩ := teardown_subnets_and_vpc_shape aws (aws region) region v
              have hTr : (delete_vpc_resources aws region c).2 =
                  Event.describe_vpcs_by_cidr c :: Event.describe_internet_gateways_by_vpc v ::
                    (tI ++ (teardown_subnets_and_vpc aws (aws region) region v).2) := by
                simp [delete_vpc_resources, get_vpc_id_some hv, get_igw_id_some hg, Proc.bind,
                  hIG]
              have hAmem : ∀ x ∈ Event.describe_vpcs_by_cidr c ::
                  Event.describe_internet_gateways_by_vpc v :: (tI ++ A0),
                    isDeleteVpc x = false :=
                forall_mem_cons_events (by simp [isDeleteVpc])
                  (forall_mem_cons_events (by simp [isDeleteVpc])
                    (forall_mem_append_events hIev hA0))
              rcases hOr with hsub | hsub
              · refine ⟨Event.describe_vpcs_by_cidr c ::
                    Event.describe_internet_gateways_by_vpc v :: (tI ++ A0), [], ?_, hAmem,
                  Or.inl rfl⟩
                rw [hTr, hsub]
                simp
              · refine ⟨Event.describe_vpcs_by_cidr c ::
                    Event.describe_internet_gateways_by_vpc v :: (tI ++ A0),
                  [Event.delete_vpc v], ?_, hAmem, Or.inr ⟨v, rfl⟩⟩
                rw [hTr, hsub]
                simp

lemma delete_vpc_resources_igw_shape (aws : String → Env) (region c : String) :
    ∃ A B, (delete_vpc_resources aws region c).2 = A ++ B ∧
      (∀ x ∈ A, isDeleteIgw x = false) ∧
      (B = [] ∨ ∃ g v C, B = Event.detach_internet_gateway g v ::
          Event.delete_internet_gateway g :: C ∧ ∀ x ∈ C, isDeleteIgw x = false) := by
  cases hv : (aws region).describe_vpcs c with
  | error e =>
    refine ⟨[Event.describe_vpcs_by_cidr c], [], ?_, by simp [isDeleteIgw], Or.inl rfl⟩
    simp [delete_vpc_resources, get_vpc_id_error hv, Proc.bind]
  | ok vs =>
    cases vs with
    | nil =>
      refine ⟨[Event.describe_vpcs_by_cidr c], [], ?_, by simp [isDeleteIgw], Or.inl rfl⟩
      simp [delete_vpc_resources, get_vpc_id_none hv, Proc.bind, Proc.pure]
    | cons v vs2 =>
      cases hg : (aws region).describe_internet_gateways v with
      | error e =>
        refine ⟨[Event.describe_vpcs_by_cidr c, Event.describe_internet_gateways_by_vpc v], [],
          ?_, by simp [isDeleteIgw], Or.inl rfl⟩
        simp [delete_vpc_resources, get_vpc_id_some hv, get_igw_id_error hg, Proc.bind]
      | ok gs =>
        cases gs with
        | nil =>
          have hsubev : ∀ x ∈ (teardown_subnets_and_vpc aws (aws region) region v).2,
              isDeleteIgw x = false := fun x hx =>
            isDeleteIgw_false_of_subnetPhase
              (teardown_subnets_and_vpc_events aws (aws region) region v x hx)
          refine ⟨Event.describe_vpcs_by_cidr c :: Event.describe_internet_gateways_by_vpc v ::
              (teardown_subnets_and_vpc aws (aws region) region v).2, [], ?_,
            forall_mem_cons_events (by simp [isDeleteIgw])
              (forall_mem_cons_events (by simp [isDeleteIgw]) hsubev), Or.inl rfl⟩
          simp [delete_vpc_resources, get_vpc_id_some hv, get_igw_id_none hg, Proc.bind,
            Proc.pure]
        | cons g gs2 =>
          have hsubev : ∀ x ∈ (teardown_subnets_and_vpc aws (aws region) region v).2,
              isDeleteIgw x = false := fun x hx =>
            isDeleteIgw_false_of_subnetPhase
              (teardown_subnets_and_vpc_events aws (aws region) region v x hx)
          cases hIG : teardown_internet_gateway aws (aws region) region g v with
          | mk rI tI =>
            have hIshape := teardown_internet_gateway_shape aws (aws region) region g v
            rw [hIG] at hIshape
            rcases hIshape with hno | ⟨A1, hA1eq, hA1⟩
            · have hIev : ∀ x ∈ tI, isDeleteIgw x = false := by
                intro x hx
                cases x <;> simp [isDeleteIgw]
                case delete_internet_gateway g2 => exact absurd hx (hno g2)
              cases rI with
              | error e =>
                refine ⟨Event.describe_vpcs_by_cidr c ::
                    Event.describe_internet_gateways_by_vpc v :: tI, [], ?_,
                  forall_mem_cons_events (by simp [isDeleteIgw])
                    (forall_mem_cons_events (by simp [isDeleteIgw]) hIev), Or.inl rfl⟩
                simp [delete_vpc_resources, get_vpc_id_some hv, get_igw_id_some hg, Proc.bind,
                  hIG]
              | ok u =>
                refine ⟨Event.describe_vpcs_by_cidr c ::
                    Event.describe_internet_gateways_by_vpc v ::
                    (tI ++ (teardown_subnets_and_vpc aws (aws region) region v).2), [], ?_,
                  forall_mem_cons_events (by simp [isDeleteIgw])
                    (forall_mem_cons_events (by simp [isDeleteIgw])
                      (forall_mem_append_events hIev hsubev)), Or.inl rfl⟩
                simp [delete_vpc_resources, get_vpc_id_some hv, get_igw_id_some hg, Proc.bind,
                  hIG]
            · cases rI with
              | error e =>
                refine ⟨Event.describe_vpcs_by_cidr c ::
                    Event.describe_internet_gateways_by_vpc v :: A1,
                  [Event.detach_internet_gateway g v, Event.delete_internet_gateway g], ?_,
                  forall_mem_cons_events (by simp [isDeleteIgw])
                    (forall_mem_cons_events (by simp [isDeleteIgw])
                      (fun x hx => by
                        cases x <;> simp [isDeleteIgw]
                        case delete_internet_gateway g2 => exact absurd hx (hA1 g2))),
                  Or.inr ⟨g, v, [], by simp, by simp⟩⟩
                have hA1eq2 : tI = A1 ++ [Event.detach_internet_gateway g v,
                    Event.delete_internet_gateway g] := hA1eq
                rw [show (delete_vpc_resources aws region c).2 =
                    Event.describe_vpcs_by_cidr c ::
                      Event.describe_internet_gateways_by_vpc v :: tI from by
                  simp [delete_vpc_resources, get_vpc_id_some hv, get_igw_id_some hg,
                    Proc.bind, hIG], hA1eq2]
                simp
              | ok u =>
                refine ⟨Event.describe_vpcs_by_cidr c ::
                    Event.describe_internet_gateways_by_vpc v :: A1,
                  Event.detach_internet_gateway g v :: Event.delete_internet_gateway g ::
                    (teardown_subnets_and_vpc aws (aws region) region v).2, ?_,
                  forall_mem_cons_events (by simp [isDeleteIgw])
                    (forall_mem_cons_events (by simp [isDeleteIgw])
                      (fun x hx => by
                        cases x <;> simp [isDeleteIgw]
                        case delete_internet_gateway g2 => exact absurd hx (hA1 g2))),
                  Or.inr ⟨g, v, (teardown_subnets_and_vpc aws (aws region) region v).2,
                    rfl, hsubev⟩⟩
                have hA1eq2 : tI = A1 ++ [Event.detach_internet_gateway g v,
                    Event.delete_internet_gateway g] := hA1eq
                rw [show (delete_vpc_resources aws region c).2 =
                    Event.describe_vpcs_by_cidr c ::
                      Event.describe_internet_gateways_by_vpc v ::
                      (tI ++ (teardown_subnets_and_vpc aws (aws region) region v).2) from by
                  simp [delete_vpc_resources, get_vpc_id_some hv, get_igw_id_some hg,
                    Proc.bind, hIG], hA1eq2]
                simp

lemma delete_vpc_resources_rtb_shape {aws : String → Env} {region c v g : String}
    {vs gs : List String} {rtb : RouteTableInfo} {rtbs : List RouteTableInfo}
    (hv : (aws region).describe_vpcs c = Except.ok (v :: vs))
    (hg : (aws region).describe_internet_gateways v = Except.ok (g :: gs))
    (hr : (aws region).describe_route_tables g = Except.ok (rtb :: rtbs)) :
    (∀ x ∈ (delete_vpc_resources aws region c).2, isDeleteRtb x = false) ∨
    (∃ post, (delete_vpc_resources aws region c).2 =
        (Event.describe_vpcs_by_cidr c :: Event.describe_internet_gateways_by_vpc v ::
           Event.describe_route_tables_by_gateway g ::
           ((rtb.associations.map (fun a => Event.disassociate_route_table a)) ++
            [Event.delete_tags [rtb.routeTableId]])) ++
          Event.delete_route_table rtb.routeTableId :: post ∧
        ∀ x ∈ post, isDeleteRtb x = false) := by
  obtain ⟨B, hB, hBev⟩ := @teardown_internet_gateway_rtb aws (aws region) region g v rtb rtbs hr
  have hBrtb : ∀ x ∈ B, isDeleteRtb x = false := fun x hx =>
    isDeleteRtb_false_of_touches_false (hBev x hx)
  have hsubev : ∀ x ∈ (teardown_subnets_and_vpc aws (aws region) region v).2,
      isDeleteRtb x = false := fun x hx =>
    isDeleteRtb_false_of_subnetPhase
      (teardown_subnets_and_vpc_events aws (aws region) region v x hx)
  cases hIG : teardown_internet_gateway aws (aws region) region g v with
  | mk rI tI =>
    have htI : tI = Event.describe_route_tables_by_gateway g ::
        ((teardown_route_table (aws region) rtb).2 ++ B) := by
      rw [hIG] at hB
      exact hB
    rcases teardown_route_table_shape (aws region) rtb with ⟨e, A, hEq, hA⟩ | ⟨r0, hEq⟩
    · have hrtbT : (teardown_route_table (aws region) rtb).2 = A := by rw [hEq]
      left
      cases rI with
      | error e2 =>
        have hTr : (delete_vpc_resources aws region c).2 =
            Event.describe_vpcs_by_cidr c :: Event.describe_internet_gateways_by_vpc v ::
              tI := by
          simp [delete_vpc_resources, get_vpc_id_some hv, get_igw_id_some hg, Proc.bind, hIG]
        rw [hTr, htI, hrtbT]
        exact forall_mem_cons_events (by simp [isDeleteRtb])
          (forall_mem_cons_events (by simp [isDeleteRtb])
            (forall_mem_cons_events (by simp [isDeleteRtb])
              (forall_mem_append_events hA hBrtb)))
      | ok u =>
        have hTr : (delete_vpc_resources aws region c).2 =
            Event.describe_vpcs_by_cidr c :: Event.describe_internet_gateways_by_vpc v ::
              (tI ++ (teardown_subnets_and_vpc aws (aws region) region v).2) := by
          simp [delete_vpc_resources, get_vpc_id_some hv, get_igw_id_some hg, Proc.bind, hIG]
        rw [hTr, htI, hrtbT]
        exact forall_mem_cons_events (by simp [isDeleteRtb])
          (forall_mem_cons_events (by simp [isDeleteRtb])
            (forall_mem_append_events
              (forall_mem_cons_events (by simp [isDeleteRtb])
                (forall_mem_append_events hA hBrtb))
              hsubev))
    · have hrtbT : (teardown_route_table (aws region) rtb).2 =
          (rtb.associations.map (fun a => Event.disassociate_route_table a)) ++
            [Event.delete_tags [rtb.routeTableId],
             Event.delete_route_table rtb.routeTableId] := by
        rw [hEq]
      right
      cases rI with
      | error e2 =>
        refine ⟨B, ?_, hBrtb⟩
        have hTr : (delete_vpc_resources aws region c).2 =
            Event.describe_vpcs_by_cidr c :: Event.describe_internet_gateways_by_vpc v ::
              tI := by
          simp [delete_vpc_resources, get_vpc_id_some hv, get_igw_id_some hg, Proc.bind, hIG]
        rw [hTr, htI, hrtbT]
        simp [List.append_assoc]
      | ok u =>
        refine ⟨B ++ (teardown_subnets_and_vpc aws (aws region) region v).2, ?_,
          forall_mem_append_events hBrtb hsubev⟩
        have hTr : (delete_vpc_resources aws region c).2 =
            Event.describe_vpcs_by_cidr c :: Event.describe_internet_gateways_by_vpc v ::
              (tI ++ (teardown_subnets_and_vpc aws (aws region) region v).2) := by
          simp [delete_vpc_resources, get_vpc_id_some hv, get_igw_id_some hg, Proc.bind, hIG]
        rw [hTr, htI, hrtbT]
        simp [List.append_assoc]

/-! ## Success trace of `create_vpc` -/

lemma create_vpc_ok_trace {aws : String → Env} {region cidr : String}
    {vpc_name : Option String} {wait : Bool} {v : String}
    (h : (create_vpc aws region cidr vpc_name wait).1 = Except.ok v) :
    (create_vpc aws region cidr vpc_name wait).2 =
      Event.create_vpc cidr ::
        ((if wait then [Event.wait_vpc_available [v]] else []) ++
         ((match vpc_name with
           | some n => [Event.create_tags [v] "Name" n]
           | none => []) ++
          [Event.modify_vpc_attribute_dns_hostnames v true])) := by
  cases hc : (aws region).create_vpc cidr with
  | error e =>
    exfalso
    simp [create_vpc, callEv, Proc.bind, hc] at h
  | ok v0 =>
    cases wait with
    | true =>
      cases hw : (aws region).wait_vpc_available v0 with
      | error e =>
        exfalso
        simp [create_vpc, callEv, Proc.bind, hc, hw] at h
      | ok u0 =>
        cases vpc_name with
        | none =>
          cases hm : (aws region).modify_vpc_attribute v0 true with
          | error e =>
            exfalso
            simp [create_vpc, callEv, Proc.bind, Proc.pure, hc, hw, hm] at h
          | ok u =>
            have hv0 : v0 = v := by
              simp [create_vpc, callEv, Proc.bind, Proc.pure, hc, hw, hm] at h
              exact h
            subst hv0
            simp [create_vpc, callEv, Proc.bind, Proc.pure, hc, hw, hm]
        | some n =>
          cases htg : (aws region).create_tags [v0] "Name" n with
          | error e =>
            exfalso
            simp [create_vpc, callEv, Proc.bind, Proc.pure, hc, hw, htg] at h
          | ok u1 =>
            cases hm : (aws region).modify_vpc_attribute v0 true with
            | error e =>
              exfalso
              simp [create_vpc, callEv, Proc.bind, Proc.pure, hc, hw, htg, hm] at h
            | ok u =>
              have hv0 : v0 = v := by
                simp [create_vpc, callEv, Proc.bind, Proc.pure, hc, hw, htg, hm] at h
                exact h
              subst hv0
              simp [create_vpc, callEv, Proc.bind, Proc.pure, hc, hw, htg, hm]
    | false =>
      cases vpc_name with
      | none =>
        cases hm : (aws region).modify_vpc_attribute v0 true with
        | error e =>
          exfalso
          simp [create_vpc, callEv, Proc.bind, Proc.pure, hc, hm] at h
        | ok u =>
          have hv0 : v0 = v := by
            simp [create_vpc, callEv, Proc.bind, Proc.pure, hc, hm] at h
            exact h
          subst hv0
          simp [create_vpc, callEv, Proc.bind, Proc.pure, hc, hm]
      | some n =>
        cases htg : (aws region).create_tags [v0] "Name" n with
        | error e =>
          exfalso
          simp [create_vpc, callEv, Proc.bind, Proc.pure, hc, htg] at h
        | ok u1 =>
          cases hm : (aws region).modify_vpc_attribute v0 true with
          | error e =>
            exfalso
            simp [create_vpc, callEv, Proc.bind, Proc.pure, hc, htg, hm] at h
          | ok u =>
            have hv0 : v0 = v := by
              simp [create_vpc, callEv, Proc.bind, Proc.pure, hc, htg, hm] at h
              exact h
            subst hv0
            simp [create_vpc, callEv, Proc.bind, Proc.pure, hc, htg, hm]

/-! ## Claims -/

/-- C2: `delete_vpc_resources` is idempotent in the sense that when the VPC
lookup by CIDR finds nothing, the call returns success immediately, its trace
is precisely the single describe call, and in particular it issues no delete,
detach, disassociate or tag-removal call; hence a rerun right after a
successful teardown (whose lookups then find nothing) deletes nothing. -/
theorem delete_vpc_resources_idempotent (aws : String → Env) (region c : String)
    (h : (aws region).describe_vpcs c = Except.ok []) :
    (delete_vpc_resources aws region c).1 = Except.ok () ∧
    (delete_vpc_resources aws region c).2 = [Event.describe_vpcs_by_cidr c] ∧
    ∀ x ∈ (delete_vpc_resources aws region c).2, isDeletionCall x = false := by
  have hTr : delete_vpc_resources aws region c =
      (Except.ok (), [Event.describe_vpcs_by_cidr c]) := by
    simp [delete_vpc_resources, get_vpc_id_none h, Proc.bind, Proc.pure]
  rw [hTr]
  refine ⟨rfl, rfl, ?_⟩
  intro x hx
  rw [List.mem_singleton] at hx
  simp [hx, isDeletionCall]

/-- Witness for C2: on a provider with no matching VPC the teardown succeeds
and its trace is the lone describe call. -/
theorem delete_vpc_resources_idempotent_witness :
    (delete_vpc_resources noVpcAws "us-west-1" "10.1.0.0/16").1 = Except.ok () ∧
    (delete_vpc_resources noVpcAws "us-west-1" "10.1.0.0/16").2 =
      [Event.describe_vpcs_by_cidr "10.1.0.0/16"] :=
  ⟨(delete_vpc_resources_idempotent noVpcAws "us-west-1" "10.1.0.0/16" rfl).1,
   (delete_vpc_resources_idempotent noVpcAws "us-west-1" "10.1.0.0/16" rfl).2.1⟩

/-- C3: when `create_route` answers with a false `Return` flag,
`create_public_route_table` fails with `RouteCreationError` and no
`create_tags` call is made, so the name tag is never applied. -/
theorem create_public_route_table_false_flag (aws : String → Env)
    (region vpc_id igw_id rtb_id : String) (rtb_name : Option String)
    (h1 : (aws region).create_route_table vpc_id = Except.ok rtb_id)
    (h2 : (aws region).create_route rtb_id "0.0.0.0/0" igw_id = Except.ok false) :
    (create_public_route_table aws region vpc_id igw_id rtb_name).1 =
      Except.error RouteCreationError ∧
    ∀ rs k val, Event.create_tags rs k val ∉
      (create_public_route_table aws region vpc_id igw_id rtb_name).2 := by
  have hTr : create_public_route_table aws region vpc_id igw_id rtb_name =
      (Except.error RouteCreationError,
       [Event.create_route_table vpc_id, Event.create_route rtb_id "0.0.0.0/0" igw_id]) := by
    simp [create_public_route_table, callEv, Proc.bind, h1, h2]
  rw [hTr]
  refine ⟨rfl, ?_⟩
  intro rs k val
  simp

/-- Witness for C3: a provider answering `create_route` with a false flag. -/
theorem create_public_route_table_false_flag_witness :
    (create_public_route_table falseRouteAws "us-west-1" "vpc-1" "igw-1"
        (some "rtb-boto3-public")).1 = Except.error RouteCreationError ∧
    Event.create_tags ["rtb-1"] "Name" "rtb-boto3-public" ∉
      (create_public_route_table falseRouteAws "us-west-1" "vpc-1" "igw-1"
        (some "rtb-boto3-public")).2 :=
  ⟨(create_public_route_table_false_flag falseRouteAws "us-west-1" "vpc-1" "igw-1" "rtb-1"
      (some "rtb-boto3-public") rfl rfl).1,
   (create_public_route_table_false_flag falseRouteAws "us-west-1" "vpc-1" "igw-1" "rtb-1"
      (some "rtb-boto3-public") rfl rfl).2 ["rtb-1"] "Name" "rtb-boto3-public"⟩

/-- C4: the semantic failure `RouteCreationError` carries the fixed code
`CreateRouteError`, so it is a distinct error value the caller can tell
apart from any propagated provider error whose code differs; transport
errors of the underlying calls are propagated unchanged, while a false
success flag produces exactly `RouteCreationError`. -/
theorem route_creation_error_distinct (aws : String → Env)
    (region vpc_id igw_id rtb_id : String) (rtb_name : Option String) (e : ClientError)
    (he : e.code ≠ "CreateRouteError") :
    e ≠ RouteCreationError ∧
    RouteCreationError.code = "CreateRouteError" ∧
    ((aws region).create_route_table vpc_id = Except.error e →
      (create_public_route_table aws region vpc_id igw_id rtb_name).1 = Except.error e) ∧
    ((aws region).create_route_table vpc_id = Except.ok rtb_id →
      (aws region).create_route rtb_id "0.0.0.0/0" igw_id = Except.error e →
      (create_public_route_table aws region vpc_id igw_id rtb_name).1 = Except.error e) ∧
    ((aws region).create_route_table vpc_id = Except.ok rtb_id →
      (aws region).create_route rtb_id "0.0.0.0/0" igw_id = Except.ok false →
      (create_public_route_table aws region vpc_id igw_id rtb_name).1 =
        Except.error RouteCreationError) := by
  refine ⟨?_, rfl, ?_, ?_, ?_⟩
  · intro hcontra
    rw [hcontra] at he
    exact he rfl
  · intro h1
    simp [create_public_route_table, callEv, Proc.bind, h1]
  · intro h1 h2
    simp [create_public_route_table, callEv, Proc.bind, h1, h2]
  · intro h1 h2
    simp [create_public_route_table, callEv, Proc.bind, h1, h2]

/-- Witness for C4: a sample provider error is distinct from
`RouteCreationError` and is propagated unchanged. -/
theorem route_creation_error_distinct_witness :
    sampleProviderError ≠ RouteCreationError ∧
    (create_public_route_table failRtbAws "us-west-1" "vpc-1" "igw-1" none).1 =
      Except.error sampleProviderError :=
  ⟨(route_creation_error_distinct failRtbAws "us-west-1" "vpc-1" "igw-1" "rtb-1" none
      sampleProviderError (by decide)).1,
   (route_creation_error_distinct failRtbAws "us-west-1" "vpc-1" "igw-1" "rtb-1" none
      sampleProviderError (by decide)).2.2.1 rfl⟩

/-- C5: a successful `associate_public_route` has both postconditions: the
association call was made on the given table and subnet (its association id
is what is returned) and the subnet's auto-assign-public-IP flag was set to
true, the two calls being issued in this order as the entire trace. -/
theorem associate_public_route_postconditions (aws : String → Env)
    (region rtb_id subnet_id a : String)
    (h : (associate_public_route aws region rtb_id subnet_id).1 = Except.ok a) :
    (aws region).associate_route_table rtb_id subnet_id = Except.ok a ∧
    (associate_public_route aws region rtb_id subnet_id).2 =
      [Event.associate_route_table rtb_id subnet_id,
       Event.modify_subnet_attribute_map_public_ip subnet_id true] ∧
    (aws region).modify_subnet_attribute subnet_id true = Except.ok () := by
  cases h1 : (aws region).associate_route_table rtb_id subnet_id with
  | error e =>
    exfalso
    simp [associate_public_route, callEv, Proc.bind, h1] at h
  | ok a0 =>
    cases h2 : (aws region).modify_subnet_attribute subnet_id true with
    | error e =>
      exfalso
      simp [associate_public_route, callEv, Proc.bind, h1, h2] at h
    | ok u =>
      have ha : a0 = a := by
        simp [associate_public_route, callEv, Proc.bind, Proc.pure, h1, h2] at h
        exact h
      subst ha
      refine ⟨rfl, ?_, rfl⟩
      simp [associate_public_route, callEv, Proc.bind, Proc.pure, h1, h2]

/-- Witness for C5: on the all-success provider the association id comes back
and the trace is exactly the two calls. -/
theorem associate_public_route_postconditions_witness :
    (okAws "us-west-1").associate_route_table "rtb-1" "subnet-1" = Except.ok "assoc-1" ∧
    (associate_public_route okAws "us-west-1" "rtb-1" "subnet-1").2 =
      [Event.associate_route_table "rtb-1" "subnet-1",
       Event.modify_subnet_attribute_map_public_ip "subnet-1" true] ∧
    (okAws "us-west-1").modify_subnet_attribute "subnet-1" true = Except.ok () :=
  associate_public_route_postconditions okAws "us-west-1" "rtb-1" "subnet-1" "assoc-1" rfl

/-- C6: on every successful `create_vpc` the DNS-hostnames attribute
modification (value true) appears exactly once in the trace, whatever the
`wait` and name arguments; and when `wait` is true the VPC-available waiter
appears exactly once and every waiter event precedes every DNS-hostnames
modification event. -/
theorem create_vpc_wait_and_dns (aws : String → Env) (region cidr : String)
    (vpc_name : Option String) (wait : Bool) (v : String)
    (h : (create_vpc aws region cidr vpc_name wait).1 = Except.ok v) :
    (create_vpc aws region cidr vpc_name wait).2.countP isModifyDnsHostnames = 1 ∧
    (wait = true →
      (create_vpc aws region cidr vpc_name wait).2.countP isWaitVpc = 1 ∧
      eventsOrdered (create_vpc aws region cidr vpc_name wait).2
        isWaitVpc isModifyDnsHostnames) := by
  have hTr := create_vpc_ok_trace h
  constructor
  · rw [hTr]
    cases wait <;> cases vpc_name <;>
      simp [List.countP_cons, List.countP_nil, List.countP_append,
        isModifyDnsHostnames]
  · intro hw
    subst hw
    constructor
    · rw [hTr]
      cases vpc_name <;>
        simp [List.countP_cons, List.countP_nil, List.countP_append, isWaitVpc]
    · cases vpc_name with
      | none =>
        rw [hTr]
        exact eventsOrdered_of_split
          [Event.create_vpc cidr, Event.wait_vpc_available [v]]
          [Event.modify_vpc_attribute_dns_hostnames v true] isWaitVpc isModifyDnsHostnames
          (by simp [isWaitVpc]) (by simp [isModifyDnsHostnames])
      | some n =>
        rw [hTr]
        exact eventsOrdered_of_split
          [Event.create_vpc cidr, Event.wait_vpc_available [v]]
          [Event.create_tags [v] "Name" n, Event.modify_vpc_attribute_dns_hostnames v true]
          isWaitVpc isModifyDnsHostnames
          (by simp [isWaitVpc]) (by simp [isModifyDnsHostnames])

/-- Witness for C6: the scenario of the spec, `region="us-west-1"`,
`cidr="10.1.0.0/16"`, `wait=true`, with a name tag. -/
theorem create_vpc_wait_and_dns_witness :
    (create_vpc okAws "us-west-1" "10.1.0.0/16" (some "vpc-boto3") true).2.countP
        isModifyDnsHostnames = 1 ∧
    (create_vpc okAws "us-west-1" "10.1.0.0/16" (some "vpc-boto3") true).2.countP
        isWaitVpc = 1 :=
  ⟨(create_vpc_wait_and_dns okAws "us-west-1" "10.1.0.0/16" (some "vpc-boto3") true
      "vpc-1" rfl).1,
   ((create_vpc_wait_and_dns okAws "us-west-1" "10.1.0.0/16" (some "vpc-boto3") true
      "vpc-1" rfl).2 rfl).1⟩

/-- C7: tearing down a VPC with no attached gateway and no subnets performs,
besides the three lookups, exactly the VPC tag deletion followed by the VPC
deletion: the full trace is the five calls listed, and its mutating
subsequence is exactly tag-delete then VPC-delete, with no gateway, route
table or subnet operation. -/
theorem delete_vpc_resources_bare_vpc (aws : String → Env) (region c v : String)
    (vs : List String)
    (hv : (aws region).describe_vpcs c = Except.ok (v :: vs))
    (hg : (aws region).describe_internet_gateways v = Except.ok [])
    (hs : (aws region).describe_subnets v = Except.ok [])
    (ht : (aws region).delete_tags [v] = Except.ok ())
    (hd : (aws region).delete_vpc v = Except.ok ()) :
    (delete_vpc_resources aws region c).1 = Except.ok () ∧
    (delete_vpc_resources aws region c).2 =
      [Event.describe_vpcs_by_cidr c, Event.describe_internet_gateways_by_vpc v,
       Event.describe_subnets_by_vpc v, Event.delete_tags [v], Event.delete_vpc v] ∧
    (delete_vpc_resources aws region c).2.filter isDeletionCall =
      [Event.delete_tags [v], Event.delete_vpc v] := by
  have hTr : delete_vpc_resources aws region c =
      (Except.ok (),
       [Event.describe_vpcs_by_cidr c, Event.describe_internet_gateways_by_vpc v,
        Event.describe_subnets_by_vpc v, Event.delete_tags [v], Event.delete_vpc v]) := by
    simp [delete_vpc_resources, get_vpc_id_some hv, get_igw_id_none hg,
      teardown_subnets_and_vpc, get_subnets_ok hs, delete_subnets_loop, Proc.bind,
      Proc.pure, callEv, ht, hd]
  rw [hTr]
  refine ⟨rfl, rfl, ?_⟩
  simp [List.filter_cons, List.filter_nil, isDeletionCall]

/-- Witness for C7: the bare-VPC provider. -/
theorem delete_vpc_resources_bare_vpc_witness :
    (delete_vpc_resources bareVpcAws "us-west-1" "10.1.0.0/16").1 = Except.ok () ∧
    (delete_vpc_resources bareVpcAws "us-west-1" "10.1.0.0/16").2.filter isDeletionCall =
      [Event.delete_tags ["vpc-1"], Event.delete_vpc "vpc-1"] :=
  ⟨(delete_vpc_resources_bare_vpc bareVpcAws "us-west-1" "10.1.0.0/16" "vpc-1" []
      rfl rfl rfl rfl rfl).1,
   (delete_vpc_resources_bare_vpc bareVpcAws "us-west-1" "10.1.0.0/16" "vpc-1" []
      rfl rfl rfl rfl rfl).2.2⟩

/-- C8: each single-result lookup helper returns `none` (not an error) when
its filtered describe call returns zero matches, and its only error results
are exactly the errors of the underlying describe call itself. -/
theorem lookup_helpers_not_found (aws : String → Env) (region c v g : String) :
    ((aws region).describe_vpcs c = Except.ok [] →
      (get_vpc_id aws region c).1 = Except.ok none) ∧
    (∀ e, (get_vpc_id aws region c).1 = Except.error e ↔
      (aws region).describe_vpcs c = Except.error e) ∧
    ((aws region).describe_internet_gateways v = Except.ok [] →
      (get_vpc_internet_gateway_id aws region v).1 = Except.ok none) ∧
    (∀ e, (get_vpc_internet_gateway_id aws region v).1 = Except.error e ↔
      (aws region).describe_internet_gateways v = Except.error e) ∧
    ((aws region).describe_route_tables g = Except.ok [] →
      (get_public_route_table_info aws region g).1 = Except.ok none) ∧
    (∀ e, (get_public_route_table_info aws region g).1 = Except.error e ↔
      (aws region).describe_route_tables g = Except.error e) := by
  refine ⟨fun h => by rw [get_vpc_id_none h], fun e => ⟨?_, fun h => by rw [get_vpc_id_error h]⟩,
    fun h => by rw [get_igw_id_none h], fun e => ⟨?_, fun h => by rw [get_igw_id_error h]⟩,
    fun h => by rw [get_rtb_info_none h], fun e => ⟨?_, fun h => by rw [get_rtb_info_error h]⟩⟩
  · intro h
    cases hd : (aws region).describe_vpcs c with
    | error e2 =>
      rw [get_vpc_id_error hd] at h
      simp only [] at h
      injection h with h2
      rw [← h2]
    | ok ws =>
      exfalso
      cases ws with
      | nil => rw [get_vpc_id_none hd] at h; simp at h
      | cons w ws2 => rw [get_vpc_id_some hd] at h; simp at h
  · intro h
    cases hd : (aws region).describe_internet_gateways v with
    | error e2 =>
      rw [get_igw_id_error hd] at h
      simp only [] at h
      injection h with h2
      rw [← h2]
    | ok ws =>
      exfalso
      cases ws with
      | nil => rw [get_igw_id_none hd] at h; simp at h
      | cons w ws2 => rw [get_igw_id_some hd] at h; simp at h
  · intro h
    cases hd : (aws region).describe_route_tables g with
    | error e2 =>
      rw [get_rtb_info_error hd] at h
      simp only [] at h
      injection h with h2
      rw [← h2]
    | ok ws =>
      exfalso
      cases ws with
      | nil => rw [get_rtb_info_none hd] at h; simp at h
      | cons w ws2 => rw [get_rtb_info_some hd] at h; simp at h

/-- Witness for C8: empty lookups answer `none` without error. -/
theorem lookup_helpers_not_found_witness :
    (get_vpc_id noVpcAws "us-west-1" "10.1.0.0/16").1 = Except.ok none ∧
    (get_public_route_table_info noRtbAws "us-west-1" "igw-1").1 = Except.ok none :=
  ⟨(lookup_helpers_not_found noVpcAws "us-west-1" "10.1.0.0/16" "vpc-1" "igw-1").1 rfl,
   (lookup_helpers_not_found noRtbAws "us-west-1" "10.1.0.0/16" "vpc-1" "igw-1").2.2.2.2.1 rfl⟩

/-- C9: when the describe call answers with more than one record (any
nonempty list), each lookup helper succeeds with the first record of the
provider's list, raising nothing and reporting no ambiguity. -/
theorem lookup_helpers_first_match (aws : String → Env) (region c vpcid g : String) :
    (∀ v vs, (aws region).describe_vpcs c = Except.ok (v :: vs) →
      (get_vpc_id aws region c).1 = Except.ok (some v)) ∧
    (∀ g0 gs, (aws region).describe_internet_gateways vpcid = Except.ok (g0 :: gs) →
      (get_vpc_internet_gateway_id aws region vpcid).1 = Except.ok (some g0)) ∧
    (∀ rtb rtbs, (aws region).describe_route_tables g = Except.ok (rtb :: rtbs) →
      (get_public_route_table_info aws region g).1 = Except.ok (some rtb)) := by
  refine ⟨?_, ?_, ?_⟩
  · intro v vs h
    rw [get_vpc_id_some h]
  · intro g0 gs h
    rw [get_igw_id_some h]
  · intro rtb rtbs h
    rw [get_rtb_info_some h]

/-- Witness for C9: a provider with two matching records for each lookup; the
first record is returned. -/
theorem lookup_helpers_first_match_witness :
    (get_vpc_id twoMatchAws "us-west-1" "10.1.0.0/16").1 = Except.ok (some "vpc-1") ∧
    (get_public_route_table_info twoMatchAws "us-west-1" "igw-1").1 =
      Except.ok (some (RouteTableInfo.mk "rtb-1" ["assoc-1"])) :=
  ⟨(lookup_helpers_first_match twoMatchAws "us-west-1" "10.1.0.0/16" "vpc-1" "igw-1").1
      "vpc-1" ["vpc-2"] rfl,
   (lookup_helpers_first_match twoMatchAws "us-west-1" "10.1.0.0/16" "vpc-1" "igw-1").2.2
      (RouteTableInfo.mk "rtb-1" ["assoc-1"]) [RouteTableInfo.mk "rtb-2" []] rfl⟩

/-- C10: when the VPC and an attached gateway are found but the route-table
lookup by gateway target returns no match, the teardown performs no
route-table operation at all (no disassociation and no route-table deletion
anywhere in the trace) yet still deletes the gateway's tags, detaches and
deletes the gateway, deletes every subnet, and ends by deleting the VPC; the
whole trace is given explicitly. -/
theorem delete_vpc_resources_no_route_table (aws : String → Env) (region c v g : String)
    (vs gs ss : List String)
    (hv : (aws region).describe_vpcs c = Except.ok (v :: vs))
    (hg : (aws region).describe_internet_gateways v = Except.ok (g :: gs))
    (hr : (aws region).describe_route_tables g = Except.ok [])
    (htg : (aws region).delete_tags [g] = Except.ok ())
    (hdet : (aws region).detach_internet_gateway g v = Except.ok ())
    (hdg : (aws region).delete_internet_gateway g = Except.ok ())
    (hs : (aws region).describe_subnets v = Except.ok ss)
    (hloop : ∀ s ∈ ss, (aws region).delete_tags [s] = Except.ok () ∧
        (aws region).delete_subnet s = Except.ok ())
    (htv : (aws region).delete_tags [v] = Except.ok ())
    (hdv : (aws region).delete_vpc v = Except.ok ()) :
    (delete_vpc_resources aws region c).1 = Except.ok () ∧
    (delete_vpc_resources aws region c).2 =
      [Event.describe_vpcs_by_cidr c, Event.describe_internet_gateways_by_vpc v,
       Event.describe_route_tables_by_gateway g, Event.delete_tags [g],
       Event.detach_internet_gateway g v, Event.delete_internet_gateway g,
       Event.describe_subnets_by_vpc v] ++
      (ss.flatMap (fun s => [Event.delete_tags [s], Event.delete_subnet s])) ++
      [Event.delete_tags [v], Event.delete_vpc v] ∧
    (∀ a, Event.disassociate_route_table a ∉ (delete_vpc_resources aws region c).2) ∧
    (∀ r, Event.delete_route_table r ∉ (delete_vpc_resources aws region c).2) ∧
    Event.delete_tags [g] ∈ (delete_vpc_resources aws region c).2 ∧
    Event.detach_internet_gateway g v ∈ (delete_vpc_resources aws region c).2 ∧
    Event.delete_internet_gateway g ∈ (delete_vpc_resources aws region c).2 ∧
    (∀ s ∈ ss, Event.delete_subnet s ∈ (delete_vpc_resources aws region c).2) := by
  have hTr : (delete_vpc_resources aws region c).2 =
      [Event.describe_vpcs_by_cidr c, Event.describe_internet_gateways_by_vpc v,
       Event.describe_route_tables_by_gateway g, Event.delete_tags [g],
       Event.detach_internet_gateway g v, Event.delete_internet_gateway g,
       Event.describe_subnets_by_vpc v] ++
      (ss.flatMap (fun s => [Event.delete_tags [s], Event.delete_subnet s])) ++
      [Event.delete_tags [v], Event.delete_vpc v] := by
    simp [delete_vpc_resources, get_vpc_id_some hv, get_igw_id_some hg,
      teardown_internet_gateway, get_rtb_info_none hr, delete_gateway_calls,
      teardown_subnets_and_vpc, get_subnets_ok hs, delete_subnets_loop_ok hloop,
      Proc.bind, Proc.pure, callEv, htg, hdet, hdg, htv, hdv, List.append_assoc]
  have hRes : (delete_vpc_resources aws region c).1 = Except.ok () := by
    simp [delete_vpc_resources, get_vpc_id_some hv, get_igw_id_some hg,
      teardown_internet_gateway, get_rtb_info_none hr, delete_gateway_calls,
      teardown_subnets_and_vpc, get_subnets_ok hs, delete_subnets_loop_ok hloop,
      Proc.bind, Proc.pure, callEv, htg, hdet, hdg, htv, hdv]
  rw [hTr]
  refine ⟨hRes, rfl, ?_, ?_, by simp, by simp, by simp, ?_⟩
  · intro a
    simp [List.mem_append, List.mem_flatMap]
  · intro r
    simp [List.mem_append, List.mem_flatMap]
  · intro s hs2
    simp only [List.mem_append, List.mem_flatMap]
    exact Or.inl (Or.inr ⟨s, hs2, by simp⟩)

/-- Witness for C10: a provider with a VPC, an attached gateway, no matching
route table, and one subnet. -/
theorem delete_vpc_resources_no_route_table_witness :
    (delete_vpc_resources noRtbAws "us-west-1" "10.1.0.0/16").1 = Except.ok () ∧
    Event.detach_internet_gateway "igw-1" "vpc-1" ∈
      (delete_vpc_resources noRtbAws "us-west-1" "10.1.0.0/16").2 ∧
    Event.delete_route_table "rtb-1" ∉
      (delete_vpc_resources noRtbAws "us-west-1" "10.1.0.0/16").2 :=
  ⟨(delete_vpc_resources_no_route_table noRtbAws "us-west-1" "10.1.0.0/16" "vpc-1" "igw-1"
      [] [] ["subnet-1"] rfl rfl rfl rfl rfl rfl rfl (fun _ _ => ⟨rfl, rfl⟩) rfl rfl).1,
   (delete_vpc_resources_no_route_table noRtbAws "us-west-1" "10.1.0.0/16" "vpc-1" "igw-1"
      [] [] ["subnet-1"] rfl rfl rfl rfl rfl rfl rfl (fun _ _ => ⟨rfl, rfl⟩) rfl rfl).2.2.2.2.2.1,
   (delete_vpc_resources_no_route_table noRtbAws "us-west-1" "10.1.0.0/16" "vpc-1" "igw-1"
      [] [] ["subnet-1"] rfl rfl rfl rfl rfl rfl rfl (fun _ _ => ⟨rfl, rfl⟩) rfl rfl).2.2.2.1
      "rtb-1"⟩

/-- C1: in every execution of `delete_vpc_resources`, against any provider
(including ones whose calls fail): whenever `delete_route_table` is called it
is on the discovered public route table and every association of that table
has already been disassociated at an earlier position of the trace; every
`delete_internet_gateway` call is preceded by a `detach_internet_gateway`
call for the same gateway; and every `delete_subnet` call precedes every
`delete_vpc` call. -/
theorem delete_vpc_resources_ordering (aws : String → Env) (region c : String) :
    (∀ v vs g gs rtb rtbs,
      (aws region).describe_vpcs c = Except.ok (v :: vs) →
      (aws region).describe_internet_gateways v = Except.ok (g :: gs) →
      (aws region).describe_route_tables g = Except.ok (rtb :: rtbs) →
      ∀ j r, (delete_vpc_resources aws region c).2.get? j =
          some (Event.delete_route_table r) →
        r = rtb.routeTableId ∧
        ∀ a ∈ rtb.associations, ∃ i, i < j ∧
          (delete_vpc_resources aws region c).2.get? i =
            some (Event.disassociate_route_table a)) ∧
    (∀ g2 j, (delete_vpc_resources aws region c).2.get? j =
        some (Event.delete_internet_gateway g2) →
      ∃ i v2, i < j ∧ (delete_vpc_resources aws region c).2.get? i =
        some (Event.detach_internet_gateway g2 v2)) ∧
    eventsOrdered (delete_vpc_resources aws region c).2 isDeleteSubnet isDeleteVpc := by
  refine ⟨?_, ?_, ?_⟩
  · intro v vs g gs rtb rtbs hv hg hr j r hj
    rcases delete_vpc_resources_rtb_shape hv hg hr with hnone | ⟨post, hTr, hpost⟩
    · exfalso
      have h2 := hnone _ (List.get?_mem hj)
      simp [isDeleteRtb] at h2
    · rw [hTr] at hj
      have hD : ∀ z ∈ rtb.associations.map (fun a => Event.disassociate_route_table a),
          isDeleteRtb z = false := by
        intro z hz
        obtain ⟨a, ha1, ha2⟩ := List.mem_map.mp hz
        rw [← ha2]
        simp [isDeleteRtb]
      have ht1 : ∀ z ∈ Event.describe_vpcs_by_cidr c ::
          Event.describe_internet_gateways_by_vpc v ::
          Event.describe_route_tables_by_gateway g ::
          ((rtb.associations.map (fun a => Event.disassociate_route_table a)) ++
           [Event.delete_tags [rtb.routeTableId]]), isDeleteRtb z = false :=
        forall_mem_cons_events (by simp [isDeleteRtb])
          (forall_mem_cons_events (by simp [isDeleteRtb])
            (forall_mem_cons_events (by simp [isDeleteRtb])
              (forall_mem_append_events hD (by simp [isDeleteRtb]))))
      obtain ⟨hjeq, hxeq⟩ := get_in_unique _ post _ _ isDeleteRtb j ht1 hpost hj
        (by simp [isDeleteRtb])
      have hreq : r = rtb.routeTableId := by injection hxeq
      refine ⟨hreq, ?_⟩
      intro a ha
      obtain ⟨k, hk⟩ := List.get?_of_mem ha
      have hklt : k < rtb.associations.length := by
        rcases List.get?_eq_some.mp hk with ⟨hlt, h2⟩
        exact hlt
      refine ⟨3 + k, ?_, ?_⟩
      · rw [hjeq]
        simp only [List.length_cons, List.length_append, List.length_map,
          List.length_singleton]
        omega
      · rw [hTr]
        rw [List.get?_append (by
          simp only [List.length_cons, List.length_append, List.length_map,
            List.length_singleton]
          omega)]
        have hidx : 3 + k = k + 1 + 1 + 1 := by omega
        rw [hidx]
        simp only [List.get?_cons_succ]
        rw [List.get?_append (by rw [List.length_map]; exact hklt)]
        rw [List.get?_map, hk]
        rfl
  · intro g2 j hj
    obtain ⟨A, B, hTr, hA, hB⟩ := delete_vpc_resources_igw_shape aws region c
    rcases hB with hBnil | ⟨g0, v0, C, hBeq, hC⟩
    · exfalso
      rw [hTr, hBnil, List.append_nil] at hj
      have h2 := hA _ (List.get?_mem hj)
      simp [isDeleteIgw] at h2
    · rw [hTr, hBeq] at hj
      have hre : A ++ Event.detach_internet_gateway g0 v0 ::
          Event.delete_internet_gateway g0 :: C =
          (A ++ [Event.detach_internet_gateway g0 v0]) ++
            Event.delete_internet_gateway g0 :: C := by
        simp
      rw [hre] at hj
      obtain ⟨hjeq, hxeq⟩ := get_in_unique _ C _ _ isDeleteIgw j
        (forall_mem_append_events hA (by simp [isDeleteIgw])) hC hj
        (by simp [isDeleteIgw])
      have hg2 : g2 = g0 := by injection hxeq
      subst hg2
      refine ⟨A.length, v0, ?_, ?_⟩
      · rw [hjeq]
        simp
      · rw [hTr, hBeq]
        rw [List.get?_append_right (le_refl A.length), Nat.sub_self,
          List.get?_cons_zero]
  · obtain ⟨A, B, hTr, hA, hB⟩ := delete_vpc_resources_vpclast aws region c
    rw [hTr]
    apply eventsOrdered_of_split
    · intro x hx
      rcases hB with hBnil | ⟨v0, hBeq⟩
      · rw [hBnil] at hx
        simp at hx
      · rw [hBeq, List.mem_singleton] at hx
        simp [hx, isDeleteSubnet]
    · exact hA

/-- Witness for C1: on the all-success provider the `delete_route_table`
call sits at index 5 of the trace and the single association `assoc-1` is
disassociated at an earlier index. -/
theorem delete_vpc_resources_ordering_witness :
    ∃ i, i < 5 ∧ (delete_vpc_resources okAws "us-west-1" "10.1.0.0/16").2.get? i =
      some (Event.disassociate_route_table "assoc-1") :=
  ((delete_vpc_resources_ordering okAws "us-west-1" "10.1.0.0/16").1 "vpc-1" [] "igw-1" []
      (RouteTableInfo.mk "rtb-1" ["assoc-1"]) [] rfl rfl rfl 5 "rtb-1" (by rfl)).2
    "assoc-1" (by simp)
